import Mathlib

/-!
# Serene: the view manager (`src/ViewManager.cpp`)

A shallow embedding of `tjg::ViewManager`: the view state machine
(`SwitchView` and the `SwitchTo*View` methods), the per-frame `Update` and
`Render`, the window event pump `HandleWindowEvents`, and the progress file
(`ReadUnlockedLevel`, `WriteUnlockedLevel`).

The object's fields become the fields of a record that is passed through every
method.  Calls into collaborators whose code lives elsewhere (the views, the
logic center, the event manager, the window, the file stream) are appended to a
chronological `trace`; the values those collaborators hand back
(`GetGameState`, a view's `HandleWindowEvents`) are functions of that history.
`unsigned int` is a natural number below `2 ^ 32`, with the reduction written
out where the source does arithmetic.  `LEVEL_MENU_OPTIONS` is declared in a
header and is a parameter here.  Console output is not modelled.
-/

namespace tjg

/-! ## Data model -/

/-- Tags of `State` used by `ViewManager.cpp`. -/
inductive State where
  | MAIN_MENU
  | LEVEL_MENU
  | PLAYING
  | RESUME
  | PAUSED
  | WON
  | FAILED
  | FINISH
  | EXIT
  | CONTINUE
  deriving DecidableEq, Repr

/-- The request a view returns from its event handler: `view_switch.state` and
`view_switch.level_number`. -/
structure ViewSwitch where
  state : State
  level_number : Nat
  deriving DecidableEq, Repr

/-- The seven view members of `ViewManager`. -/
inductive View where
  | main_menu_view
  | level_menu_view
  | level_view
  | pause_menu_view
  | win_menu_view
  | finish_menu_view
  | fail_menu_view
  deriving DecidableEq, Repr

/-- A window event as far as `HandleWindowEvents` looks at it: `sf::Event::Closed`
or anything else, `code` standing for the rest of the event. -/
inductive Event where
  | Closed
  | Other (code : Nat)
  deriving DecidableEq, Repr

/-- Calls that leave `ViewManager.cpp`, in the order they are made. -/
inductive Effect where
  /-- Call `event_manager.Fire<ViewChanged>(view_switch)`. -/
  | Fire (view_switch : ViewSwitch)
  /-- Call `view.Initialize(...)`; `arg` is the argument when there is one. -/
  | ViewInitialize (view : View) (arg : Option Nat)
  /-- Call `view.Update(...)`; `elapsed` is the argument when there is one. -/
  | ViewUpdate (view : View) (elapsed : Option Int)
  /-- Call `view.Render()`. -/
  | ViewRender (view : View)
  /-- Call `current_view.HandleWindowEvents(event)`. -/
  | ViewHandleWindowEvents (view : View) (event : Event)
  /-- Call `logic_center.Reset()`. -/
  | LogicReset
  /-- Call `logic_center.Initialize(level_number)`. -/
  | LogicInitialize (level_number : Nat)
  /-- Call `logic_center.Update(elapsed)`. -/
  | LogicUpdate (elapsed : Int)
  /-- Call `window.close()`. -/
  | WindowClose
  /-- Text sent to the opened `std::ofstream` of the progress file. -/
  | FileWrite (text : List Char)
  deriving DecidableEq, Repr

/-- What the collaborators answer, given everything that was called so far. -/
structure Collaborators where
  /-- Result of `logic_center.GetGameState()`. -/
  GetGameState : List Effect → State
  /-- Result of `current_view.HandleWindowEvents(event)`. -/
  HandleWindowEvents : View → Event → List Effect → ViewSwitch

/-- The fields of `ViewManager` together with the window and the progress file
`../data/progress.log`. -/
structure ViewManager where
  state : State
  current_level : Nat
  unlocked : Nat
  running : Bool
  /-- Whether `window` is open; `window.close()` clears it, after which
  `window.pollEvent` returns false. -/
  window_open : Bool
  /-- Characters of the progress file, `none` when it cannot be opened for
  reading. -/
  progress_file : Option (List Char)
  /-- Whether the progress file can be opened for writing. -/
  progress_writable : Bool
  trace : List Effect
  deriving DecidableEq, Repr

/-- Number of values of `unsigned int`. -/
def UINT_SIZE : Nat := 2 ^ 32

/-- Largest `unsigned int`. -/
def UINT_MAX : Nat := 2 ^ 32 - 1

/-- Append one call to the trace. -/
def ViewManager.log (vm : ViewManager) (e : Effect) : ViewManager :=
  { vm with trace := vm.trace ++ [e] }

/-! ## Progress file -/

/-- The character of a decimal digit `d < 10`. -/
def digitChar (d : Nat) : Char := Char.ofNat (48 + d)

/-- Decimal digits of `n` in front of `acc`, most significant first; `fuel`
bounds the number of digits produced. -/
def to_string_aux : Nat → Nat → List Char → List Char
  | 0, _, acc => acc
  | fuel + 1, n, acc =>
    if n / 10 = 0 then digitChar (n % 10) :: acc
    else to_string_aux fuel (n / 10) (digitChar (n % 10) :: acc)

/-- Decimal text of an unsigned value, as `std::to_string` gives it. -/
def to_string (n : Nat) : List Char := to_string_aux (n + 1) n []

/-- Whitespace of the classic locale, skipped before a formatted extraction. -/
def isSpace (c : Char) : Bool :=
  c.toNat = 32 || (9 ≤ c.toNat && c.toNat ≤ 13)

/-- Whether `c` is one of `0` to `9`. -/
def isDigit (c : Char) : Bool := 48 ≤ c.toNat && c.toNat ≤ 57

/-- Value of a run of decimal digits. -/
def digitsValue (ds : List Char) : Nat :=
  ds.foldl (fun a c => 10 * a + (c.toNat - 48)) 0

/-- The extraction `progress_file >> unlocked` into an `unsigned int` holding
`old`, on a stream with characters `s` (C++11 rules, decimal base, classic
locale).  Leading whitespace is skipped; at end of input nothing is stored; a
field without digits stores 0; a magnitude above the largest `unsigned int`
stores that largest value; a leading minus negates within the type. -/
def extractUnsigned (s : List Char) (old : Nat) : Nat :=
  match s.dropWhile isSpace with
  | [] => old
  | c :: cs =>
    let negative : Bool := c = '-'
    let field : List Char := if c = '-' ∨ c = '+' then cs else c :: cs
    let ds := field.takeWhile isDigit
    if ds = [] then 0
    else if digitsValue ds > UINT_MAX then UINT_MAX
    else if negative then (UINT_SIZE - digitsValue ds) % UINT_SIZE
    else digitsValue ds

/-- `ViewManager::ReadUnlockedLevel`. -/
def ReadUnlockedLevel (LEVEL_MENU_OPTIONS : Nat) (vm : ViewManager) : Nat :=
  let unlocked : Nat := 1
  let unlocked :=
    match vm.progress_file with
    | some s => extractUnsigned s unlocked
    | none => unlocked
  if unlocked > LEVEL_MENU_OPTIONS then LEVEL_MENU_OPTIONS else unlocked

/-- `ViewManager::WriteUnlockedLevel`. -/
def WriteUnlockedLevel (LEVEL_MENU_OPTIONS : Nat) (level_number : Nat)
    (vm : ViewManager) : ViewManager :=
  let level_number :=
    if level_number > LEVEL_MENU_OPTIONS then LEVEL_MENU_OPTIONS else level_number
  if vm.progress_writable then
    { vm with
      progress_file := some (to_string level_number)
      trace := vm.trace ++ [Effect.FileWrite (to_string level_number)] }
  else vm

/-- `ViewManager::Initialize`. -/
def Initialize (LEVEL_MENU_OPTIONS : Nat) (vm : ViewManager) : ViewManager :=
  { vm with unlocked := ReadUnlockedLevel LEVEL_MENU_OPTIONS vm }

/-- `ViewManager::Running`. -/
def Running (vm : ViewManager) : Bool := vm.running

/-! ## View switching -/

/-- `ViewManager::SwitchToMainMenuView`. -/
def SwitchToMainMenuView (vm : ViewManager) : ViewManager :=
  { vm.log (Effect.ViewInitialize View.main_menu_view none) with state := State.MAIN_MENU }

/-- `ViewManager::SwitchToLevelMenuView`. -/
def SwitchToLevelMenuView (unlocked : Nat) (vm : ViewManager) : ViewManager :=
  { vm.log (Effect.ViewInitialize View.level_menu_view (some unlocked)) with
    state := State.LEVEL_MENU }

/-- `ViewManager::SwitchToPauseMenuView`. -/
def SwitchToPauseMenuView (vm : ViewManager) : ViewManager :=
  { vm.log (Effect.ViewInitialize View.pause_menu_view (some vm.current_level)) with
    state := State.PAUSED }

/-- `ViewManager::SwitchToFinishMenuView`. -/
def SwitchToFinishMenuView (vm : ViewManager) : ViewManager :=
  { vm.log (Effect.ViewInitialize View.finish_menu_view none) with state := State.FINISH }

/-- `ViewManager::SwitchToWinMenuView`. -/
def SwitchToWinMenuView (LEVEL_MENU_OPTIONS : Nat) (vm : ViewManager) : ViewManager :=
  if vm.current_level ≥ LEVEL_MENU_OPTIONS then SwitchToFinishMenuView vm
  else
    let vm1 : ViewManager :=
      if (vm.current_level + 1) % UINT_SIZE > vm.unlocked then
        { vm with unlocked := (vm.current_level + 1) % UINT_SIZE }
      else vm
    let vm2 := WriteUnlockedLevel LEVEL_MENU_OPTIONS vm1.unlocked vm1
    { vm2.log (Effect.ViewInitialize View.win_menu_view (some vm2.current_level)) with
      state := State.WON }

/-- `ViewManager::SwitchToFailMenuView`. -/
def SwitchToFailMenuView (vm : ViewManager) : ViewManager :=
  { vm.log (Effect.ViewInitialize View.fail_menu_view (some vm.current_level)) with
    state := State.FAILED }

/-- `ViewManager::SwitchToLevelView`. -/
def SwitchToLevelView (level_number : Nat) (vm : ViewManager) : ViewManager :=
  let vm1 := vm.log (Effect.LogicInitialize level_number)
  { vm1.log (Effect.ViewInitialize View.level_view none) with state := State.PLAYING }

/-- `ViewManager::ResumePlayerView`. -/
def ResumePlayerView (vm : ViewManager) : ViewManager :=
  { vm with state := State.PLAYING }

/-- `ViewManager::SwitchView`. -/
def SwitchView (LEVEL_MENU_OPTIONS : Nat) (view_switch : ViewSwitch)
    (vm : ViewManager) : ViewManager :=
  let vm := vm.log (Effect.Fire view_switch)
  match view_switch.state with
  | State.MAIN_MENU => SwitchToMainMenuView vm
  | State.LEVEL_MENU => SwitchToLevelMenuView vm.unlocked vm
  | State.PLAYING =>
    let vm := vm.log Effect.LogicReset
    if view_switch.level_number > 0 then
      SwitchToLevelView view_switch.level_number
        { vm with current_level := view_switch.level_number }
    else SwitchToLevelView vm.current_level vm
  | State.RESUME => ResumePlayerView vm
  | State.PAUSED => SwitchToPauseMenuView vm
  | State.WON => SwitchToWinMenuView LEVEL_MENU_OPTIONS vm
  | State.FAILED => SwitchToFailMenuView vm
  | State.EXIT =>
    { vm.log Effect.WindowClose with window_open := false, running := false }
  | _ => vm

/-! ## The frame -/

/-- `ViewManager::HandleWindowEvents`, on the events the window has pending.
`window.pollEvent` yields them one at a time and yields nothing once the window
has been closed.  `current_view` is bound when the method is entered. -/
def HandleWindowEvents (LEVEL_MENU_OPTIONS : Nat) (ext : Collaborators)
    (current_view : View) : List Event → ViewManager → ViewManager
  | [], vm => vm
  | event :: pending, vm =>
    if vm.window_open = false then vm
    else
      match event with
      | Event.Closed =>
        HandleWindowEvents LEVEL_MENU_OPTIONS ext current_view pending
          { vm.log Effect.WindowClose with window_open := false, running := false }
      | Event.Other _ =>
        let view_switch := ext.HandleWindowEvents current_view event vm.trace
        let vm1 := vm.log (Effect.ViewHandleWindowEvents current_view event)
        HandleWindowEvents LEVEL_MENU_OPTIONS ext current_view pending
          (if view_switch.state ≠ State.CONTINUE then
            SwitchView LEVEL_MENU_OPTIONS view_switch vm1
          else vm1)

/-- First `switch` of `ViewManager::Update`: pump the window events into the
view of the state the frame starts in, then update a view. -/
def UpdateViews (LEVEL_MENU_OPTIONS : Nat) (ext : Collaborators) (elapsed : Int)
    (events : List Event) (vm : ViewManager) : ViewManager :=
  match vm.state with
  | State.MAIN_MENU =>
    let vm1 := HandleWindowEvents LEVEL_MENU_OPTIONS ext View.main_menu_view events vm
    if vm1.state = State.MAIN_MENU then
      vm1.log (Effect.ViewUpdate View.main_menu_view none)
    else vm1
  | State.LEVEL_MENU =>
    let vm1 := HandleWindowEvents LEVEL_MENU_OPTIONS ext View.level_menu_view events vm
    if vm1.state = State.LEVEL_MENU then
      vm1.log (Effect.ViewUpdate View.level_menu_view none)
    else vm1
  | State.WON =>
    (HandleWindowEvents LEVEL_MENU_OPTIONS ext View.win_menu_view events vm).log
      (Effect.ViewUpdate View.win_menu_view none)
  | State.FINISH =>
    (HandleWindowEvents LEVEL_MENU_OPTIONS ext View.finish_menu_view events vm).log
      (Effect.ViewUpdate View.finish_menu_view none)
  | State.FAILED =>
    (HandleWindowEvents LEVEL_MENU_OPTIONS ext View.fail_menu_view events vm).log
      (Effect.ViewUpdate View.fail_menu_view none)
  | State.PAUSED =>
    (HandleWindowEvents LEVEL_MENU_OPTIONS ext View.pause_menu_view events vm).log
      (Effect.ViewUpdate View.pause_menu_view none)
  | State.PLAYING =>
    let vm1 := HandleWindowEvents LEVEL_MENU_OPTIONS ext View.level_view events vm
    if vm1.state = State.PLAYING then
      (vm1.log (Effect.LogicUpdate elapsed)).log
        (Effect.ViewUpdate View.level_view (some elapsed))
    else vm1
  | _ => vm

/-- Second `switch` of `ViewManager::Update`: switch to a menu when the logic
center reports that the level was won or lost. -/
def UpdateGameState (LEVEL_MENU_OPTIONS : Nat) (ext : Collaborators)
    (vm : ViewManager) : ViewManager :=
  match ext.GetGameState vm.trace with
  | State.WON => SwitchToWinMenuView LEVEL_MENU_OPTIONS (vm.log Effect.LogicReset)
  | State.FAILED => SwitchToFailMenuView (vm.log Effect.LogicReset)
  | _ => vm

/-- `ViewManager::Update`, with `events` the window events pending in this
frame. -/
def Update (LEVEL_MENU_OPTIONS : Nat) (ext : Collaborators) (elapsed : Int)
    (events : List Event) (vm : ViewManager) : ViewManager :=
  UpdateGameState LEVEL_MENU_OPTIONS ext
    (UpdateViews LEVEL_MENU_OPTIONS ext elapsed events vm)

/-- `ViewManager::Render`. -/
def Render (vm : ViewManager) : ViewManager :=
  match vm.state with
  | State.MAIN_MENU => vm.log (Effect.ViewRender View.main_menu_view)
  | State.LEVEL_MENU => vm.log (Effect.ViewRender View.level_menu_view)
  | State.PAUSED => vm.log (Effect.ViewRender View.pause_menu_view)
  | State.WON => vm.log (Effect.ViewRender View.win_menu_view)
  | State.FINISH => vm.log (Effect.ViewRender View.finish_menu_view)
  | State.FAILED => vm.log (Effect.ViewRender View.fail_menu_view)
  | State.PLAYING => vm.log (Effect.ViewRender View.level_view)
  | _ => vm

/-- One call the host loop makes on the manager after start-up. -/
inductive Call where
  | update (elapsed : Int) (events : List Event)
  | render
  deriving DecidableEq, Repr

/-- Perform one call of the host loop. -/
def Call.run (LEVEL_MENU_OPTIONS : Nat) (ext : Collaborators) :
    Call → ViewManager → ViewManager
  | Call.update elapsed events, vm => Update LEVEL_MENU_OPTIONS ext elapsed events vm
  | Call.render, vm => Render vm

/-- Perform a sequence of calls of the host loop, first to last. -/
def runCalls (LEVEL_MENU_OPTIONS : Nat) (ext : Collaborators) :
    List Call → ViewManager → ViewManager
  | [], vm => vm
  | c :: cs, vm => runCalls LEVEL_MENU_OPTIONS ext cs (c.run LEVEL_MENU_OPTIONS ext vm)

/-- Apply a sequence of requests through `SwitchView`, first to last. -/
def SwitchViews (LEVEL_MENU_OPTIONS : Nat) : List ViewSwitch → ViewManager → ViewManager
  | [], vm => vm
  | r :: rs, vm => SwitchViews LEVEL_MENU_OPTIONS rs (SwitchView LEVEL_MENU_OPTIONS r vm)

/-! ## Vocabulary of the statements -/

/-- The Won transition applied in `before` gave `after`: the state is `WON`,
`unlocked` is the larger of its old value and `current_level + 1`, that value
was handed to `WriteUnlockedLevel`, the win view was initialized with
`current_level` after the write, and nothing else changed.  When the file
opens for writing and the old `unlocked` is within `LEVEL_MENU_OPTIONS`, the
file holds exactly the decimal text of the new `unlocked`. -/
def WonFrom (LEVEL_MENU_OPTIONS : Nat) (before after : ViewManager) : Prop :=
  after.state = State.WON ∧
  after.unlocked = max before.unlocked (before.current_level + 1) ∧
  after.current_level = before.current_level ∧
  after.running = before.running ∧
  after.window_open = before.window_open ∧
  after.progress_writable = before.progress_writable ∧
  after.progress_file =
    (WriteUnlockedLevel LEVEL_MENU_OPTIONS
      (max before.unlocked (before.current_level + 1)) before).progress_file ∧
  after.trace =
    (WriteUnlockedLevel LEVEL_MENU_OPTIONS
      (max before.unlocked (before.current_level + 1)) before).trace ++
      [Effect.ViewInitialize View.win_menu_view (some before.current_level)] ∧
  (before.progress_writable = true → before.unlocked ≤ LEVEL_MENU_OPTIONS →
    after.progress_file =
      some (to_string (max before.unlocked (before.current_level + 1))) ∧
    after.trace = before.trace ++
      [Effect.FileWrite (to_string (max before.unlocked (before.current_level + 1))),
       Effect.ViewInitialize View.win_menu_view (some before.current_level)])

instance (LEVEL_MENU_OPTIONS : Nat) (before after : ViewManager) :
    Decidable (WonFrom LEVEL_MENU_OPTIONS before after) := by
  unfold WonFrom
  infer_instance

/-- The value an integer has once converted to `unsigned int`. -/
def toUnsigned (n : Int) : Nat := (n % 2 ^ 32).toNat

/-- The clamp the specification speaks of: `n` brought into `[lo, hi]`. -/
def spec_clamp (n lo hi : Nat) : Nat := max lo (min n hi)

/-- Whether a call is an announcement `event_manager.Fire<ViewChanged>`. -/
def Effect.isFire : Effect → Bool
  | Effect.Fire _ => true
  | _ => false

/-- Whether `SwitchView` assigns `state` for a request with this target: every
target but `EXIT`, `FINISH` and `CONTINUE`. -/
def changesState : State → Bool
  | State.EXIT => false
  | State.FINISH => false
  | State.CONTINUE => false
  | _ => true

/-- The state a request with a state-changing target leaves the manager in, when
`current_level` is the level at that moment: `RESUME` rests in `PLAYING`, `WON`
rests in `FINISH` on the last level, every other target rests in itself. -/
def restingState (LEVEL_MENU_OPTIONS current_level : Nat) : State → State
  | State.RESUME => State.PLAYING
  | State.WON => if current_level ≥ LEVEL_MENU_OPTIONS then State.FINISH else State.WON
  | s => s

/-- A manager in the main menu, level 1 current and unlocked, window open, no
progress file yet, nothing called so far. -/
def freshManager : ViewManager :=
  { state := State.MAIN_MENU, current_level := 1, unlocked := 1, running := true,
    window_open := true, progress_file := none, progress_writable := true, trace := [] }

/-- A manager playing level 1 of which level 1 is the highest unlocked. -/
def playingManager : ViewManager :=
  { freshManager with state := State.PLAYING }

/-- The fresh manager with a progress file holding `text`. -/
def managerWithFile (text : List Char) : ViewManager :=
  { freshManager with progress_file := some text }

/-- Collaborators whose logic center always reports `game_state` and whose
views never ask for a switch. -/
def quietCollaborators (game_state : State) : Collaborators :=
  { GetGameState := fun _ => game_state
    HandleWindowEvents := fun _ _ _ => { state := State.CONTINUE, level_number := 0 } }

/-- A manager whose pause menu is shown while level 1 is suspended. -/
def pausedManager : ViewManager :=
  { freshManager with state := State.PAUSED }

/-- Collaborators whose views answer every event with `request` and whose logic
center always reports `PLAYING`. -/
def scriptedCollaborators (request : ViewSwitch) : Collaborators :=
  { GetGameState := fun _ => State.PLAYING
    HandleWindowEvents := fun _ _ _ => request }

/-- Whether a call is of a kind `SwitchView` and the `SwitchTo*View` methods
make: an announcement, a view initialization, a reset or initialization of the
logic center, the closing of the window, a write to the progress file. -/
def Effect.isSwitchEffect : Effect → Bool
  | Effect.Fire _ => true
  | Effect.ViewInitialize _ _ => true
  | Effect.LogicReset => true
  | Effect.LogicInitialize _ => true
  | Effect.WindowClose => true
  | Effect.FileWrite _ => true
  | _ => false

/-- The events offered to view event handlers, with the view each was offered
to, in the order of the calls. -/
def offered (trace : List Effect) : List (View × Event) :=
  trace.filterMap fun e =>
    match e with
    | Effect.ViewHandleWindowEvents view event => some (view, event)
    | _ => none

/-- The calls that advance the game: `logic_center.Update` and
`level_view.Update`, in the order they were made. -/
def advanced (trace : List Effect) : List Effect :=
  trace.filter fun e =>
    match e with
    | Effect.LogicUpdate _ => true
    | Effect.ViewUpdate View.level_view _ => true
    | _ => false

/-- The texts written to the progress file, in the order they were written. -/
def written (trace : List Effect) : List (List Char) :=
  trace.filterMap fun e =>
    match e with
    | Effect.FileWrite text => some text
    | _ => none

/-- Whether an event is anything but `sf::Event::Closed`. -/
def notClosed : Event → Bool
  | Event.Closed => false
  | Event.Other _ => true

/-- The view whose `HandleWindowEvents` the first `switch` of `Update` passes to
`HandleWindowEvents` for the state a frame starts in. -/
def viewOf : State → Option View
  | State.MAIN_MENU => some View.main_menu_view
  | State.LEVEL_MENU => some View.level_menu_view
  | State.WON => some View.win_menu_view
  | State.FINISH => some View.finish_menu_view
  | State.FAILED => some View.fail_menu_view
  | State.PAUSED => some View.pause_menu_view
  | State.PLAYING => some View.level_view
  | _ => none

/-- Whether `current_level` is the number of a level: between 1 and
`LEVEL_MENU_OPTIONS`. -/
def validLevel (LEVEL_MENU_OPTIONS : Nat) (vm : ViewManager) : Prop :=
  1 ≤ vm.current_level ∧ vm.current_level ≤ LEVEL_MENU_OPTIONS

instance (LEVEL_MENU_OPTIONS : Nat) (vm : ViewManager) :
    Decidable (validLevel LEVEL_MENU_OPTIONS vm) := by
  unfold validLevel
  infer_instance

/-- Whether a request asks for no level beyond the last one: a `PLAYING` request
carries a level number of at most `LEVEL_MENU_OPTIONS` (0 keeps the level). -/
def requestsValidLevel (LEVEL_MENU_OPTIONS : Nat) (view_switch : ViewSwitch) : Prop :=
  view_switch.state = State.PLAYING → view_switch.level_number ≤ LEVEL_MENU_OPTIONS

instance (LEVEL_MENU_OPTIONS : Nat) (view_switch : ViewSwitch) :
    Decidable (requestsValidLevel LEVEL_MENU_OPTIONS view_switch) := by
  unfold requestsValidLevel
  infer_instance

/-! ## Theorems -/

theorem wonFrom_SwitchToWinMenuView (LEVEL_MENU_OPTIONS : Nat) (vm : ViewManager)
    (hk : vm.current_level < LEVEL_MENU_OPTIONS)
    (hMAX : LEVEL_MENU_OPTIONS ≤ UINT_MAX) :
    WonFrom LEVEL_MENU_OPTIONS vm (SwitchToWinMenuView LEVEL_MENU_OPTIONS vm) := by
  have hmod : (vm.current_level + 1) % UINT_SIZE = vm.current_level + 1 := by
    apply Nat.mod_eq_of_lt
    simp only [UINT_MAX, UINT_SIZE] at *
    omega
  have hnot : ¬ vm.current_level ≥ LEVEL_MENU_OPTIONS := by omega
  unfold WonFrom SwitchToWinMenuView
  rw [if_neg hnot, hmod]
  by_cases hu : vm.current_level + 1 > vm.unlocked
  · have hmax : max vm.unlocked (vm.current_level + 1) = vm.current_level + 1 := by
      omega
    rw [if_pos hu, hmax]
    by_cases hw : vm.progress_writable = true
    · have h1 : ¬ vm.current_level + 1 > LEVEL_MENU_OPTIONS := by omega
      simp [WriteUnlockedLevel, ViewManager.log, hw, h1]
    · simp [WriteUnlockedLevel, ViewManager.log, hw]
  · have hmax : max vm.unlocked (vm.current_level + 1) = vm.unlocked := by
      omega
    rw [if_neg hu, hmax]
    by_cases hw : vm.progress_writable = true
    · simp only [WriteUnlockedLevel, ViewManager.log, hw, if_true, true_and, and_true,
        true_implies]
      intro h1
      have h2 : ¬ vm.unlocked > LEVEL_MENU_OPTIONS := by omega
      simp [h2]
    · simp [WriteUnlockedLevel, ViewManager.log, hw]

/-- C1: in a context whose `current_level` is `k < LEVEL_MENU_OPTIONS`, the Won
transition — `SwitchToWinMenuView` called directly, through `SwitchView` with
target `WON` (after the announcement), or by the game-state poll of `Update`
(in the context the first part of `Update` left, after the reset of the logic
center) — leaves `unlocked = max(u, k + 1)`, hands that value to
`WriteUnlockedLevel`, initializes the win view with `k` and leaves
`state = WON`. -/
theorem C1_won_below_last_level (LEVEL_MENU_OPTIONS : Nat)
    (hMAX : LEVEL_MENU_OPTIONS ≤ UINT_MAX) (vm : ViewManager) (n : Nat)
    (ext : Collaborators) (elapsed : Int) (events : List Event) :
    (vm.current_level < LEVEL_MENU_OPTIONS →
      WonFrom LEVEL_MENU_OPTIONS vm (SwitchToWinMenuView LEVEL_MENU_OPTIONS vm) ∧
      WonFrom LEVEL_MENU_OPTIONS
        (vm.log (Effect.Fire { state := State.WON, level_number := n }))
        (SwitchView LEVEL_MENU_OPTIONS { state := State.WON, level_number := n } vm)) ∧
    ((UpdateViews LEVEL_MENU_OPTIONS ext elapsed events vm).current_level
        < LEVEL_MENU_OPTIONS →
      ext.GetGameState (UpdateViews LEVEL_MENU_OPTIONS ext elapsed events vm).trace
        = State.WON →
      WonFrom LEVEL_MENU_OPTIONS
        ((UpdateViews LEVEL_MENU_OPTIONS ext elapsed events vm).log Effect.LogicReset)
        (Update LEVEL_MENU_OPTIONS ext elapsed events vm)) := by
  refine ⟨fun hk => ⟨wonFrom_SwitchToWinMenuView LEVEL_MENU_OPTIONS vm hk hMAX,
    wonFrom_SwitchToWinMenuView LEVEL_MENU_OPTIONS _ hk hMAX⟩, ?_⟩
  intro hk hwon
  have hrun : Update LEVEL_MENU_OPTIONS ext elapsed events vm =
      SwitchToWinMenuView LEVEL_MENU_OPTIONS
        ((UpdateViews LEVEL_MENU_OPTIONS ext elapsed events vm).log Effect.LogicReset) := by
    simp only [Update, UpdateGameState, hwon]
  rw [hrun]
  exact wonFrom_SwitchToWinMenuView LEVEL_MENU_OPTIONS _ hk hMAX

/-- Witness of C1: level 1 of 3 is won with only level 1 unlocked, through each
of the three paths. -/
theorem C1_won_below_last_level_witness :
    WonFrom 3 playingManager (SwitchToWinMenuView 3 playingManager) ∧
    WonFrom 3 (playingManager.log (Effect.Fire { state := State.WON, level_number := 0 }))
      (SwitchView 3 { state := State.WON, level_number := 0 } playingManager) ∧
    WonFrom 3
      ((UpdateViews 3 (quietCollaborators State.WON) 16 [] playingManager).log
        Effect.LogicReset)
      (Update 3 (quietCollaborators State.WON) 16 [] playingManager) :=
  ⟨((C1_won_below_last_level 3 (by decide) playingManager 0
      (quietCollaborators State.WON) 16 []).1 (by decide)).1,
   ((C1_won_below_last_level 3 (by decide) playingManager 0
      (quietCollaborators State.WON) 16 []).1 (by decide)).2,
   (C1_won_below_last_level 3 (by decide) playingManager 0
      (quietCollaborators State.WON) 16 []).2 (by decide) (by decide)⟩

/-- C2: in a context whose `current_level` is at least `LEVEL_MENU_OPTIONS`, the
Won transition, through each of its three paths, leaves `state = FINISH`,
initializes the finish view and changes nothing else: `unlocked` and the
progress file are as before and no write is made. -/
theorem C2_won_at_last_level (LEVEL_MENU_OPTIONS : Nat) (vm : ViewManager) (n : Nat)
    (ext : Collaborators) (elapsed : Int) (events : List Event) :
    (vm.current_level ≥ LEVEL_MENU_OPTIONS →
      SwitchToWinMenuView LEVEL_MENU_OPTIONS vm =
        { vm with
          state := State.FINISH
          trace := vm.trace ++ [Effect.ViewInitialize View.finish_menu_view none] } ∧
      SwitchView LEVEL_MENU_OPTIONS { state := State.WON, level_number := n } vm =
        { vm with
          state := State.FINISH
          trace := vm.trace ++
            [Effect.Fire { state := State.WON, level_number := n },
             Effect.ViewInitialize View.finish_menu_view none] }) ∧
    ((UpdateViews LEVEL_MENU_OPTIONS ext elapsed events vm).current_level
        ≥ LEVEL_MENU_OPTIONS →
      ext.GetGameState (UpdateViews LEVEL_MENU_OPTIONS ext elapsed events vm).trace
        = State.WON →
      Update LEVEL_MENU_OPTIONS ext elapsed events vm =
        { UpdateViews LEVEL_MENU_OPTIONS ext elapsed events vm with
          state := State.FINISH
          trace := (UpdateViews LEVEL_MENU_OPTIONS ext elapsed events vm).trace ++
            [Effect.LogicReset, Effect.ViewInitialize View.finish_menu_view none] }) := by
  constructor
  · intro hk
    simp [SwitchView, SwitchToWinMenuView, SwitchToFinishMenuView, ViewManager.log, hk]
  · intro hk hwon
    simp [Update, UpdateGameState, hwon, SwitchToWinMenuView, SwitchToFinishMenuView,
      ViewManager.log, hk]

/-- Witness of C2: level 1 of 1 is won, through each of the three paths. -/
theorem C2_won_at_last_level_witness :
    (SwitchToWinMenuView 1 playingManager).state = State.FINISH ∧
    (SwitchView 1 { state := State.WON, level_number := 0 } playingManager).unlocked = 1 ∧
    (Update 1 (quietCollaborators State.WON) 16 [] playingManager).state
      = State.FINISH := by
  have h := C2_won_at_last_level 1 playingManager 0 (quietCollaborators State.WON) 16 []
  have h1 := h.1 (by decide)
  have h2 := h.2 (by decide) (by decide)
  refine ⟨?_, ?_, ?_⟩
  · rw [h1.1]
  · rw [h1.2]; rfl
  · rw [h2]

/-- C3: `SwitchView` with target `PLAYING` and level number 0 keeps
`current_level = k` and initializes the logic center for `k`; with a level
number `n > 0` it sets `current_level = n` and initializes the logic center for
`n`.  Either way the announcement is followed by the reset of the logic center,
then its initialization, then the initialization of the level view, and the
state is `PLAYING` whatever it was. -/
theorem C3_playing_request (LEVEL_MENU_OPTIONS : Nat) (vm : ViewManager) (n : Nat) :
    SwitchView LEVEL_MENU_OPTIONS { state := State.PLAYING, level_number := 0 } vm =
      { vm with
        state := State.PLAYING
        trace := vm.trace ++
          [Effect.Fire { state := State.PLAYING, level_number := 0 },
           Effect.LogicReset,
           Effect.LogicInitialize vm.current_level,
           Effect.ViewInitialize View.level_view none] } ∧
    (n > 0 →
      SwitchView LEVEL_MENU_OPTIONS { state := State.PLAYING, level_number := n } vm =
        { vm with
          state := State.PLAYING
          current_level := n
          trace := vm.trace ++
            [Effect.Fire { state := State.PLAYING, level_number := n },
             Effect.LogicReset,
             Effect.LogicInitialize n,
             Effect.ViewInitialize View.level_view none] }) := by
  constructor
  · simp [SwitchView, SwitchToLevelView, ViewManager.log]
  · intro hn
    simp [SwitchView, SwitchToLevelView, ViewManager.log, hn]

/-- Witness of C3: level 2 is requested from the main menu. -/
theorem C3_playing_request_witness :
    (SwitchView 3 { state := State.PLAYING, level_number := 2 } freshManager).current_level
      = 2 ∧
    (SwitchView 3 { state := State.PLAYING, level_number := 2 } freshManager).state
      = State.PLAYING := by
  have h := (C3_playing_request 3 freshManager 2).2 (by decide)
  constructor
  · rw [h]
  · rw [h]

/-! ### The progress file -/

theorem digitChar_toNat (d : Nat) (h : d < 10) : (digitChar d).toNat = 48 + d := by
  interval_cases d <;> rfl

theorem isDigit_digitChar (d : Nat) (h : d < 10) : isDigit (digitChar d) = true := by
  interval_cases d <;> rfl

theorem digitsValue_append (ds : List Char) (c : Char) :
    digitsValue (ds ++ [c]) = 10 * digitsValue ds + (c.toNat - 48) := by
  simp [digitsValue, List.foldl_append]

theorem to_string_aux_spec (fuel : Nat) : ∀ (n : Nat) (acc : List Char), n < fuel →
    ∃ ds : List Char, to_string_aux fuel n acc = ds ++ acc ∧ ds ≠ [] ∧
      (∀ c ∈ ds, isDigit c = true) ∧ digitsValue ds = n := by
  induction fuel with
  | zero => intro n acc h; omega
  | succ fuel ih =>
    intro n acc h
    have hd : n % 10 < 10 := Nat.mod_lt _ (by decide)
    by_cases h0 : n / 10 = 0
    · refine ⟨[digitChar (n % 10)], ?_, by simp, ?_, ?_⟩
      · simp [to_string_aux, h0]
      · intro c hc
        rw [List.mem_singleton] at hc
        rw [hc]
        exact isDigit_digitChar _ hd
      · simp only [digitsValue, List.foldl_cons, List.foldl_nil]
        rw [digitChar_toNat _ hd]
        omega
    · obtain ⟨ds, hds, -, hall, hval⟩ :=
        ih (n / 10) (digitChar (n % 10) :: acc) (by omega)
      refine ⟨ds ++ [digitChar (n % 10)], ?_, by simp, ?_, ?_⟩
      · simp [to_string_aux, h0, hds]
      · intro c hc
        rcases List.mem_append.mp hc with hc | hc
        · exact hall c hc
        · rw [List.mem_singleton] at hc
          rw [hc]
          exact isDigit_digitChar _ hd
      · rw [digitsValue_append, hval, digitChar_toNat _ hd]
        omega

theorem to_string_spec (n : Nat) :
    to_string n ≠ [] ∧ (∀ c ∈ to_string n, isDigit c = true) ∧
      digitsValue (to_string n) = n := by
  obtain ⟨ds, hds, hne, hall, hval⟩ := to_string_aux_spec (n + 1) n [] (by omega)
  have : to_string n = ds := by simp [to_string, hds]
  rw [this]
  exact ⟨hne, hall, hval⟩


theorem isSpace_of_isDigit (c : Char) (h : isDigit c = true) : isSpace c = false := by
  simp only [isDigit, isSpace, Bool.and_eq_true, Bool.or_eq_false_iff, Bool.and_eq_false_iff,
    decide_eq_true_eq, decide_eq_false_iff_not] at *
  omega

theorem not_sign_of_isDigit (c : Char) (h : isDigit c = true) : ¬ (c = '-' ∨ c = '+') := by
  rintro (rfl | rfl)
  · exact absurd h (by decide)
  · exact absurd h (by decide)

theorem dropWhile_isSpace_append (ws tl : List Char) (c : Char)
    (hws : ∀ x ∈ ws, isSpace x = true) (hc : isSpace c = false) :
    (ws ++ c :: tl).dropWhile isSpace = c :: tl := by
  induction ws with
  | nil => simp [List.dropWhile, hc]
  | cons w ws ih =>
    have hw : isSpace w = true := hws w (List.mem_cons_self _ _)
    simp only [List.cons_append, List.dropWhile, hw]
    exact ih (fun x hx => hws x (List.mem_cons_of_mem _ hx))

theorem takeWhile_isDigit_append (ds rest : List Char)
    (hds : ∀ x ∈ ds, isDigit x = true)
    (hrest : ∀ x, rest.head? = some x → isDigit x = false) :
    (ds ++ rest).takeWhile isDigit = ds := by
  induction ds with
  | nil =>
    cases rest with
    | nil => rfl
    | cons r rs =>
      have hr : isDigit r = false := hrest r rfl
      simp [List.takeWhile, hr]
  | cons d ds ih =>
    have hd : isDigit d = true := hds d (List.mem_cons_self _ _)
    rw [List.cons_append, List.takeWhile_cons, hd, if_pos rfl,
      ih (fun x hx => hds x (List.mem_cons_of_mem _ hx))]

theorem extractUnsigned_digits (ws ds rest : List Char) (old : Nat)
    (hws : ∀ x ∈ ws, isSpace x = true) (hne : ds ≠ [])
    (hds : ∀ x ∈ ds, isDigit x = true)
    (hrest : ∀ x, rest.head? = some x → isDigit x = false) :
    extractUnsigned (ws ++ ds ++ rest) old =
      if digitsValue ds > UINT_MAX then UINT_MAX else digitsValue ds := by
  cases ds with
  | nil => exact absurd rfl hne
  | cons d tl =>
    have hd : isDigit d = true := hds d (List.mem_cons_self _ _)
    have hdrop : (ws ++ (d :: tl) ++ rest).dropWhile isSpace = d :: (tl ++ rest) := by
      rw [List.append_assoc, List.cons_append]
      exact dropWhile_isSpace_append ws (tl ++ rest) d hws (isSpace_of_isDigit d hd)
    have htake : (d :: (tl ++ rest)).takeWhile isDigit = d :: tl := by
      rw [← List.cons_append]
      exact takeWhile_isDigit_append (d :: tl) rest hds hrest
    have hsign : ¬ (d = '-' ∨ d = '+') := not_sign_of_isDigit d hd
    have hminus : ¬ d = '-' := fun h => hsign (Or.inl h)
    unfold extractUnsigned
    rw [hdrop]
    dsimp only
    rw [if_neg hsign, htake]
    have hneg : decide (d = '-') = false := by simp [hminus]
    simp [hneg]

theorem extractUnsigned_to_string (n old : Nat) :
    extractUnsigned (to_string n) old = if n > UINT_MAX then UINT_MAX else n := by
  obtain ⟨hne, hall, hval⟩ := to_string_spec n
  have h := extractUnsigned_digits [] (to_string n) [] old (by simp) hne hall (by simp)
  simp only [List.nil_append, List.append_nil, hval] at h
  exact h

theorem ReadUnlockedLevel_le (LEVEL_MENU_OPTIONS : Nat) (vm : ViewManager) :
    ReadUnlockedLevel LEVEL_MENU_OPTIONS vm ≤ LEVEL_MENU_OPTIONS := by
  unfold ReadUnlockedLevel
  dsimp only
  split_ifs with h
  · exact le_refl _
  · omega

/-- C4 fails as stated: 0 is saved as the text `0` and loaded back as 0, while
the clamp into `[1, 3]` is 1. -/
theorem C4_round_trip_counterexample :
    freshManager.progress_writable = true ∧
    ReadUnlockedLevel 3 (WriteUnlockedLevel 3 (toUnsigned 0) freshManager) = 0 ∧
    spec_clamp (toUnsigned 0) 1 3 = 1 := by
  decide

/-- C4, amended: when the file can be opened, `WriteUnlockedLevel(n)` followed by
`ReadUnlockedLevel()` returns `min(n mod 2^32, LEVEL_MENU_OPTIONS)`: the value
is bounded above on both sides and never raised to 1.  This is the clamp into
`[1, LEVEL_MENU_OPTIONS]` whenever `n mod 2^32` is at least 1. -/
theorem C4_round_trip (LEVEL_MENU_OPTIONS : Nat) (hMAX : LEVEL_MENU_OPTIONS ≤ UINT_MAX)
    (n : Int) (vm : ViewManager) (hw : vm.progress_writable = true) :
    ReadUnlockedLevel LEVEL_MENU_OPTIONS
        (WriteUnlockedLevel LEVEL_MENU_OPTIONS (toUnsigned n) vm)
      = min (toUnsigned n) LEVEL_MENU_OPTIONS ∧
    (1 ≤ toUnsigned n → 1 ≤ LEVEL_MENU_OPTIONS →
      ReadUnlockedLevel LEVEL_MENU_OPTIONS
          (WriteUnlockedLevel LEVEL_MENU_OPTIONS (toUnsigned n) vm)
        = spec_clamp (toUnsigned n) 1 LEVEL_MENU_OPTIONS) := by
  have hread : ReadUnlockedLevel LEVEL_MENU_OPTIONS
      (WriteUnlockedLevel LEVEL_MENU_OPTIONS (toUnsigned n) vm)
        = min (toUnsigned n) LEVEL_MENU_OPTIONS := by
    have hfile : (WriteUnlockedLevel LEVEL_MENU_OPTIONS (toUnsigned n) vm).progress_file
        = some (to_string (min (toUnsigned n) LEVEL_MENU_OPTIONS)) := by
      by_cases hgt : toUnsigned n > LEVEL_MENU_OPTIONS
      · have hmin : min (toUnsigned n) LEVEL_MENU_OPTIONS = LEVEL_MENU_OPTIONS := by omega
        simp [WriteUnlockedLevel, hw, hgt, hmin]
      · have hmin : min (toUnsigned n) LEVEL_MENU_OPTIONS = toUnsigned n := by omega
        simp [WriteUnlockedLevel, hw, hgt, hmin]
    have hle : min (toUnsigned n) LEVEL_MENU_OPTIONS ≤ LEVEL_MENU_OPTIONS := by omega
    have hsmall : ¬ min (toUnsigned n) LEVEL_MENU_OPTIONS > UINT_MAX := by omega
    unfold ReadUnlockedLevel
    rw [hfile]
    dsimp only
    rw [extractUnsigned_to_string, if_neg hsmall, if_neg (by omega)]
  refine ⟨hread, ?_⟩
  intro h1 hM
  rw [hread]
  unfold spec_clamp
  omega

/-- Witness of C4: the value -1, which is `2^32 - 1` as `unsigned int`, saved and
loaded with 3 levels. -/
theorem C4_round_trip_witness :
    ReadUnlockedLevel 3 (WriteUnlockedLevel 3 (toUnsigned (-1)) freshManager)
      = min (toUnsigned (-1)) 3 :=
  (C4_round_trip 3 (by decide) (-1) freshManager (by decide)).1

/-- C5 fails as stated: a progress file holding `abc` opens, the extraction finds
no digits and stores 0, and 0 is returned, not 1. -/
theorem C5_read_default_counterexample :
    ReadUnlockedLevel 3 (managerWithFile ['a', 'b', 'c']) = 0 := by
  decide

/-- C5, amended: `ReadUnlockedLevel` always returns a value (it is a total
function) and that value never exceeds `LEVEL_MENU_OPTIONS`; it is exactly 1
when the progress file cannot be opened and when it opens but is empty or holds
only whitespace. -/
theorem C5_read_default (LEVEL_MENU_OPTIONS : Nat) (hMAX : 1 ≤ LEVEL_MENU_OPTIONS)
    (vm : ViewManager) :
    ReadUnlockedLevel LEVEL_MENU_OPTIONS vm ≤ LEVEL_MENU_OPTIONS ∧
    (vm.progress_file = none → ReadUnlockedLevel LEVEL_MENU_OPTIONS vm = 1) ∧
    (∀ ws : List Char, (∀ c ∈ ws, isSpace c = true) → vm.progress_file = some ws →
      ReadUnlockedLevel LEVEL_MENU_OPTIONS vm = 1) := by
  refine ⟨ReadUnlockedLevel_le LEVEL_MENU_OPTIONS vm, ?_, ?_⟩
  · intro hnone
    unfold ReadUnlockedLevel
    rw [hnone]
    dsimp only
    rw [if_neg (by omega)]
  · intro ws hws hsome
    have hdrop : ws.dropWhile isSpace = [] := by
      rw [List.dropWhile_eq_nil_iff]
      exact hws
    unfold ReadUnlockedLevel
    rw [hsome]
    dsimp only
    unfold extractUnsigned
    rw [hdrop]
    dsimp only
    rw [if_neg (by omega)]

/-- Witness of C5: no progress file, and a progress file of one newline. -/
theorem C5_read_default_witness :
    ReadUnlockedLevel 3 freshManager = 1 ∧
    ReadUnlockedLevel 3 (managerWithFile [Char.ofNat 10]) = 1 :=
  ⟨(C5_read_default 3 (by decide) freshManager).2.1 rfl,
   (C5_read_default 3 (by decide) (managerWithFile [Char.ofNat 10])).2.2
     [Char.ofNat 10] (by decide) rfl⟩

/-- C6 fails as stated: a progress file holding `0` is a decimal unsigned integer,
yet 0 is returned and `Initialize` leaves `unlocked = 0`, below the clamp into
`[1, 3]`. -/
theorem C6_read_clamp_counterexample :
    ReadUnlockedLevel 3 (managerWithFile ['0']) = 0 ∧
    spec_clamp 0 1 3 = 1 ∧
    (Initialize 3 (managerWithFile ['0'])).unlocked = 0 := by
  decide

/-- C6, amended: for a progress file that opens and holds the decimal digits `ds`
of a value `v` (after optional whitespace, before anything that is not a
digit), `ReadUnlockedLevel` returns `min(v, LEVEL_MENU_OPTIONS)`.  The result
never exceeds `LEVEL_MENU_OPTIONS`; it is the clamp into
`[1, LEVEL_MENU_OPTIONS]`, hence at least 1, when `v` is at least 1, and it is 0
when `v` is 0.  `Initialize` stores that result in `unlocked`. -/
theorem C6_read_clamp (LEVEL_MENU_OPTIONS : Nat) (hMAX : LEVEL_MENU_OPTIONS ≤ UINT_MAX)
    (vm : ViewManager) (ws ds rest : List Char)
    (hws : ∀ c ∈ ws, isSpace c = true) (hne : ds ≠ [])
    (hds : ∀ c ∈ ds, isDigit c = true)
    (hrest : ∀ c, rest.head? = some c → isDigit c = false)
    (hfile : vm.progress_file = some (ws ++ ds ++ rest)) :
    ReadUnlockedLevel LEVEL_MENU_OPTIONS vm = min (digitsValue ds) LEVEL_MENU_OPTIONS ∧
    ReadUnlockedLevel LEVEL_MENU_OPTIONS vm ≤ LEVEL_MENU_OPTIONS ∧
    (1 ≤ digitsValue ds → 1 ≤ LEVEL_MENU_OPTIONS →
      ReadUnlockedLevel LEVEL_MENU_OPTIONS vm
        = spec_clamp (digitsValue ds) 1 LEVEL_MENU_OPTIONS ∧
      1 ≤ ReadUnlockedLevel LEVEL_MENU_OPTIONS vm) ∧
    (digitsValue ds = 0 → ReadUnlockedLevel LEVEL_MENU_OPTIONS vm = 0) ∧
    (Initialize LEVEL_MENU_OPTIONS vm).unlocked
      = min (digitsValue ds) LEVEL_MENU_OPTIONS := by
  have hread : ReadUnlockedLevel LEVEL_MENU_OPTIONS vm
      = min (digitsValue ds) LEVEL_MENU_OPTIONS := by
    unfold ReadUnlockedLevel
    rw [hfile]
    dsimp only
    rw [extractUnsigned_digits ws ds rest 1 hws hne hds hrest]
    split_ifs <;> omega
  refine ⟨hread, ReadUnlockedLevel_le LEVEL_MENU_OPTIONS vm, ?_, ?_, ?_⟩
  · intro h1 hM
    rw [hread]
    unfold spec_clamp
    omega
  · intro h0
    rw [hread, h0]
    exact Nat.zero_min _
  · exact hread

/-- Witness of C6: a progress file holding `2` and a newline, with 3 levels. -/
theorem C6_read_clamp_witness :
    ReadUnlockedLevel 3 (managerWithFile ['2', Char.ofNat 10])
      = min (digitsValue ['2']) 3 :=
  (C6_read_clamp 3 (by decide) (managerWithFile ['2', Char.ofNat 10])
    [] ['2'] [Char.ofNat 10] (by decide) (by decide) (by decide) (by decide) rfl).1

/-! ### The Failed transition -/

/-- C9: the Failed transition — `SwitchToFailMenuView` called directly, through
`SwitchView` with target `FAILED`, or by the game-state poll of `Update` —
initializes the fail view with `current_level`, leaves `state = FAILED` and
changes nothing else: `unlocked`, `current_level` and the progress file are as
before and no write is made. -/
theorem C9_failed_transition (LEVEL_MENU_OPTIONS : Nat) (vm : ViewManager) (n : Nat)
    (ext : Collaborators) (elapsed : Int) (events : List Event) :
    SwitchToFailMenuView vm =
      { vm with
        state := State.FAILED
        trace := vm.trace ++
          [Effect.ViewInitialize View.fail_menu_view (some vm.current_level)] } ∧
    SwitchView LEVEL_MENU_OPTIONS { state := State.FAILED, level_number := n } vm =
      { vm with
        state := State.FAILED
        trace := vm.trace ++
          [Effect.Fire { state := State.FAILED, level_number := n },
           Effect.ViewInitialize View.fail_menu_view (some vm.current_level)] } ∧
    (ext.GetGameState (UpdateViews LEVEL_MENU_OPTIONS ext elapsed events vm).trace
        = State.FAILED →
      Update LEVEL_MENU_OPTIONS ext elapsed events vm =
        { UpdateViews LEVEL_MENU_OPTIONS ext elapsed events vm with
          state := State.FAILED
          trace := (UpdateViews LEVEL_MENU_OPTIONS ext elapsed events vm).trace ++
            [Effect.LogicReset,
             Effect.ViewInitialize View.fail_menu_view
               (some (UpdateViews LEVEL_MENU_OPTIONS ext elapsed events vm).current_level)] })
    := by
  refine ⟨?_, ?_, ?_⟩
  · simp [SwitchToFailMenuView, ViewManager.log]
  · simp [SwitchView, SwitchToFailMenuView, ViewManager.log]
  · intro hfailed
    simp [Update, UpdateGameState, hfailed, SwitchToFailMenuView, ViewManager.log]

/-- Witness of C9: level 1 is lost while it is played. -/
theorem C9_failed_transition_witness :
    (Update 3 (quietCollaborators State.FAILED) 16 [] playingManager).state
      = State.FAILED ∧
    (Update 3 (quietCollaborators State.FAILED) 16 [] playingManager).unlocked = 1 := by
  have h := (C9_failed_transition 3 playingManager 0 (quietCollaborators State.FAILED)
    16 []).2.2 (by decide)
  constructor
  · rw [h]
  · rw [h]; rfl

/-! ### Exit -/

theorem WriteUnlockedLevel_fields (LEVEL_MENU_OPTIONS level_number : Nat)
    (vm : ViewManager) :
    (WriteUnlockedLevel LEVEL_MENU_OPTIONS level_number vm).state = vm.state ∧
    (WriteUnlockedLevel LEVEL_MENU_OPTIONS level_number vm).current_level
      = vm.current_level ∧
    (WriteUnlockedLevel LEVEL_MENU_OPTIONS level_number vm).unlocked = vm.unlocked ∧
    (WriteUnlockedLevel LEVEL_MENU_OPTIONS level_number vm).running = vm.running ∧
    (WriteUnlockedLevel LEVEL_MENU_OPTIONS level_number vm).window_open
      = vm.window_open := by
  unfold WriteUnlockedLevel
  dsimp only
  split_ifs <;> simp

theorem SwitchToWinMenuView_running (LEVEL_MENU_OPTIONS : Nat) (vm : ViewManager) :
    (SwitchToWinMenuView LEVEL_MENU_OPTIONS vm).running = vm.running ∧
    (SwitchToWinMenuView LEVEL_MENU_OPTIONS vm).window_open = vm.window_open := by
  unfold SwitchToWinMenuView
  dsimp only
  split_ifs <;>
    simp [SwitchToFinishMenuView, ViewManager.log, WriteUnlockedLevel_fields]

theorem UpdateGameState_running (LEVEL_MENU_OPTIONS : Nat) (ext : Collaborators)
    (vm : ViewManager) :
    (UpdateGameState LEVEL_MENU_OPTIONS ext vm).running = vm.running ∧
    (UpdateGameState LEVEL_MENU_OPTIONS ext vm).window_open = vm.window_open := by
  unfold UpdateGameState
  split
  · simp [SwitchToWinMenuView_running, ViewManager.log]
  · simp [SwitchToFailMenuView, ViewManager.log]
  · exact ⟨rfl, rfl⟩

theorem HandleWindowEvents_closed (LEVEL_MENU_OPTIONS : Nat) (ext : Collaborators)
    (view : View) (events : List Event) (vm : ViewManager)
    (h : vm.window_open = false) :
    HandleWindowEvents LEVEL_MENU_OPTIONS ext view events vm = vm := by
  cases events with
  | nil => rfl
  | cons e es => simp [HandleWindowEvents, h]

theorem UpdateViews_closed (LEVEL_MENU_OPTIONS : Nat) (ext : Collaborators)
    (elapsed : Int) (events : List Event) (vm : ViewManager)
    (h : vm.window_open = false) :
    (UpdateViews LEVEL_MENU_OPTIONS ext elapsed events vm).running = vm.running ∧
    (UpdateViews LEVEL_MENU_OPTIONS ext elapsed events vm).window_open = false := by
  unfold UpdateViews
  simp only [HandleWindowEvents_closed LEVEL_MENU_OPTIONS ext _ events vm h]
  split <;> (try split_ifs) <;> simp [ViewManager.log, h]

theorem Render_running (vm : ViewManager) :
    (Render vm).running = vm.running ∧ (Render vm).window_open = vm.window_open := by
  unfold Render
  split <;> simp [ViewManager.log]

theorem runCalls_closed (LEVEL_MENU_OPTIONS : Nat) (ext : Collaborators)
    (calls : List Call) : ∀ vm : ViewManager,
    vm.running = false → vm.window_open = false →
    (runCalls LEVEL_MENU_OPTIONS ext calls vm).running = false ∧
    (runCalls LEVEL_MENU_OPTIONS ext calls vm).window_open = false := by
  induction calls with
  | nil => intro vm hr hw; exact ⟨hr, hw⟩
  | cons c cs ih =>
    intro vm hr hw
    simp only [runCalls]
    apply ih
    · cases c with
      | update elapsed events =>
        simp only [Call.run, Update]
        rw [(UpdateGameState_running _ _ _).1,
          (UpdateViews_closed LEVEL_MENU_OPTIONS ext elapsed events vm hw).1, hr]
      | render => simp only [Call.run]; rw [(Render_running vm).1, hr]
    · cases c with
      | update elapsed events =>
        simp only [Call.run, Update]
        rw [(UpdateGameState_running _ _ _).2,
          (UpdateViews_closed LEVEL_MENU_OPTIONS ext elapsed events vm hw).2]
      | render => simp only [Call.run]; rw [(Render_running vm).2, hw]

/-! ### The announcement -/

theorem SwitchToWinMenuView_trace (LEVEL_MENU_OPTIONS : Nat) (vm : ViewManager) :
    ∃ rest : List Effect,
      (SwitchToWinMenuView LEVEL_MENU_OPTIONS vm).trace = vm.trace ++ rest ∧
      rest.any Effect.isFire = false := by
  unfold SwitchToWinMenuView WriteUnlockedLevel
  dsimp only
  split_ifs
  · exact ⟨[Effect.ViewInitialize View.finish_menu_view none],
      by simp [SwitchToFinishMenuView, ViewManager.log], by simp [Effect.isFire]⟩
  · exact ⟨[Effect.FileWrite (to_string LEVEL_MENU_OPTIONS),
      Effect.ViewInitialize View.win_menu_view (some vm.current_level)],
      by simp [ViewManager.log], by simp [Effect.isFire]⟩
  · exact ⟨[Effect.FileWrite (to_string ((vm.current_level + 1) % UINT_SIZE)),
      Effect.ViewInitialize View.win_menu_view (some vm.current_level)],
      by simp [ViewManager.log], by simp [Effect.isFire]⟩
  · exact ⟨[Effect.ViewInitialize View.win_menu_view (some vm.current_level)],
      by simp [ViewManager.log], by simp [Effect.isFire]⟩
  · exact ⟨[Effect.FileWrite (to_string LEVEL_MENU_OPTIONS),
      Effect.ViewInitialize View.win_menu_view (some vm.current_level)],
      by simp [ViewManager.log], by simp [Effect.isFire]⟩
  · exact ⟨[Effect.FileWrite (to_string vm.unlocked),
      Effect.ViewInitialize View.win_menu_view (some vm.current_level)],
      by simp [ViewManager.log], by simp [Effect.isFire]⟩
  · exact ⟨[Effect.ViewInitialize View.win_menu_view (some vm.current_level)],
      by simp [ViewManager.log], by simp [Effect.isFire]⟩

theorem SwitchView_trace (LEVEL_MENU_OPTIONS : Nat) (view_switch : ViewSwitch)
    (vm : ViewManager) :
    ∃ rest : List Effect,
      (SwitchView LEVEL_MENU_OPTIONS view_switch vm).trace
        = vm.trace ++ Effect.Fire view_switch :: rest ∧
      rest.any Effect.isFire = false := by
  obtain ⟨s, n⟩ := view_switch
  cases s
  case MAIN_MENU =>
    exact ⟨[Effect.ViewInitialize View.main_menu_view none],
      by simp [SwitchView, SwitchToMainMenuView, ViewManager.log], by simp [Effect.isFire]⟩
  case LEVEL_MENU =>
    exact ⟨[Effect.ViewInitialize View.level_menu_view (some vm.unlocked)],
      by simp [SwitchView, SwitchToLevelMenuView, ViewManager.log], by simp [Effect.isFire]⟩
  case PLAYING =>
    by_cases hn : n > 0
    · exact ⟨[Effect.LogicReset, Effect.LogicInitialize n,
        Effect.ViewInitialize View.level_view none],
        by simp [SwitchView, SwitchToLevelView, ViewManager.log, hn],
        by simp [Effect.isFire]⟩
    · exact ⟨[Effect.LogicReset, Effect.LogicInitialize vm.current_level,
        Effect.ViewInitialize View.level_view none],
        by simp [SwitchView, SwitchToLevelView, ViewManager.log, hn],
        by simp [Effect.isFire]⟩
  case RESUME =>
    exact ⟨[], by simp [SwitchView, ResumePlayerView, ViewManager.log], by simp⟩
  case PAUSED =>
    exact ⟨[Effect.ViewInitialize View.pause_menu_view (some vm.current_level)],
      by simp [SwitchView, SwitchToPauseMenuView, ViewManager.log], by simp [Effect.isFire]⟩
  case WON =>
    obtain ⟨rest, hrest, hno⟩ := SwitchToWinMenuView_trace LEVEL_MENU_OPTIONS
      (vm.log (Effect.Fire { state := State.WON, level_number := n }))
    refine ⟨rest, ?_, hno⟩
    show (SwitchToWinMenuView LEVEL_MENU_OPTIONS
      (vm.log (Effect.Fire { state := State.WON, level_number := n }))).trace = _
    rw [hrest]
    simp [ViewManager.log]
  case FAILED =>
    exact ⟨[Effect.ViewInitialize View.fail_menu_view (some vm.current_level)],
      by simp [SwitchView, SwitchToFailMenuView, ViewManager.log], by simp [Effect.isFire]⟩
  case FINISH =>
    exact ⟨[], by simp [SwitchView, ViewManager.log], by simp⟩
  case EXIT =>
    exact ⟨[Effect.WindowClose], by simp [SwitchView, ViewManager.log],
      by simp [Effect.isFire]⟩
  case CONTINUE =>
    exact ⟨[], by simp [SwitchView, ViewManager.log], by simp⟩

/-- C8 fails as stated: when the logic center reports `WON` during `Update` the
manager goes from `PLAYING` to `WON` and nothing is announced, and a window
close event stops the manager and nothing is announced either. -/
theorem C8_announcement_counterexample :
    (Update 3 (quietCollaborators State.WON) 16 [] playingManager).state = State.WON ∧
    (Update 3 (quietCollaborators State.WON) 16 [] playingManager).trace
      = [Effect.LogicUpdate 16,
         Effect.ViewUpdate View.level_view (some 16),
         Effect.LogicReset,
         Effect.FileWrite ['2'],
         Effect.ViewInitialize View.win_menu_view (some 1)] ∧
    (HandleWindowEvents 3 (quietCollaborators State.PLAYING) View.main_menu_view
      [Event.Closed] freshManager).running = false ∧
    (HandleWindowEvents 3 (quietCollaborators State.PLAYING) View.main_menu_view
      [Event.Closed] freshManager).trace = [Effect.WindowClose] := by
  decide

/-- C8, amended: every request passed to `SwitchView`, whether or not it has a
case of its own, is announced exactly once with the request as it was given
(target and level), before every other call the switch makes.  The switches
made by the game-state poll of `Update` and the handling of a window close
event do not pass through `SwitchView` and announce nothing. -/
theorem C8_announcement (LEVEL_MENU_OPTIONS : Nat) (ext : Collaborators)
    (view_switch : ViewSwitch) (vm : ViewManager) (view : View)
    (pending : List Event) :
    (∃ rest : List Effect,
      (SwitchView LEVEL_MENU_OPTIONS view_switch vm).trace
        = vm.trace ++ Effect.Fire view_switch :: rest ∧
      rest.any Effect.isFire = false) ∧
    (∃ rest : List Effect,
      (UpdateGameState LEVEL_MENU_OPTIONS ext vm).trace = vm.trace ++ rest ∧
      rest.any Effect.isFire = false) ∧
    (vm.window_open = true →
      HandleWindowEvents LEVEL_MENU_OPTIONS ext view (Event.Closed :: pending) vm =
        { vm with
          running := false
          window_open := false
          trace := vm.trace ++ [Effect.WindowClose] }) := by
  refine ⟨SwitchView_trace LEVEL_MENU_OPTIONS view_switch vm, ?_, ?_⟩
  · unfold UpdateGameState
    split
    · obtain ⟨rest, hrest, hno⟩ := SwitchToWinMenuView_trace LEVEL_MENU_OPTIONS
        (vm.log Effect.LogicReset)
      refine ⟨Effect.LogicReset :: rest, ?_, ?_⟩
      · rw [hrest]
        simp [ViewManager.log]
      · simpa [Effect.isFire] using hno
    · exact ⟨[Effect.LogicReset,
        Effect.ViewInitialize View.fail_menu_view (some vm.current_level)],
        by simp [SwitchToFailMenuView, ViewManager.log], by simp [Effect.isFire]⟩
    · exact ⟨[], by simp, by simp⟩
  · intro hopen
    have hstop : HandleWindowEvents LEVEL_MENU_OPTIONS ext view pending
        { vm with
          running := false
          window_open := false
          trace := vm.trace ++ [Effect.WindowClose] } =
        { vm with
          running := false
          window_open := false
          trace := vm.trace ++ [Effect.WindowClose] } :=
      HandleWindowEvents_closed LEVEL_MENU_OPTIONS ext view pending _ rfl
    simp only [HandleWindowEvents, hopen, ViewManager.log]
    simpa using hstop

/-- Witness of C8: a window close event followed by another event, in the main
menu with the window open. -/
theorem C8_announcement_witness :
    HandleWindowEvents 3 (quietCollaborators State.PLAYING) View.main_menu_view
        (Event.Closed :: [Event.Other 7]) freshManager =
      { freshManager with
        running := false
        window_open := false
        trace := freshManager.trace ++ [Effect.WindowClose] } :=
  (C8_announcement 3 (quietCollaborators State.PLAYING)
    { state := State.MAIN_MENU, level_number := 0 } freshManager View.main_menu_view
    [Event.Other 7]).2.2 rfl

/-! ### Sequences of requests -/

theorem SwitchToWinMenuView_state (LEVEL_MENU_OPTIONS : Nat) (vm : ViewManager) :
    (SwitchToWinMenuView LEVEL_MENU_OPTIONS vm).state =
      if vm.current_level ≥ LEVEL_MENU_OPTIONS then State.FINISH else State.WON := by
  unfold SwitchToWinMenuView
  dsimp only
  split_ifs <;> simp [SwitchToFinishMenuView, ViewManager.log]

theorem SwitchView_state_of_changes (LEVEL_MENU_OPTIONS : Nat) (view_switch : ViewSwitch)
    (vm : ViewManager) (h : changesState view_switch.state = true) :
    (SwitchView LEVEL_MENU_OPTIONS view_switch vm).state
      = restingState LEVEL_MENU_OPTIONS vm.current_level view_switch.state := by
  obtain ⟨s, n⟩ := view_switch
  cases s
  case PLAYING =>
    by_cases hn : n > 0 <;>
      simp [SwitchView, SwitchToLevelView, ViewManager.log, restingState, hn]
  case WON =>
    show (SwitchToWinMenuView LEVEL_MENU_OPTIONS
      (vm.log (Effect.Fire { state := State.WON, level_number := n }))).state = _
    rw [SwitchToWinMenuView_state]
    rfl
  case EXIT => simp [changesState] at h
  case FINISH => simp [changesState] at h
  case CONTINUE => simp [changesState] at h
  all_goals
    simp [SwitchView, SwitchToMainMenuView, SwitchToLevelMenuView, ResumePlayerView,
      SwitchToPauseMenuView, SwitchToFailMenuView, ViewManager.log, restingState]

theorem SwitchView_state_of_not_changes (LEVEL_MENU_OPTIONS : Nat)
    (view_switch : ViewSwitch) (vm : ViewManager)
    (h : changesState view_switch.state = false) :
    (SwitchView LEVEL_MENU_OPTIONS view_switch vm).state = vm.state := by
  obtain ⟨s, n⟩ := view_switch
  cases s
  case EXIT => simp [SwitchView, ViewManager.log]
  case FINISH => simp [SwitchView, ViewManager.log]
  case CONTINUE => simp [SwitchView, ViewManager.log]
  all_goals simp [changesState] at h

theorem SwitchViews_append (LEVEL_MENU_OPTIONS : Nat) (pre post : List ViewSwitch) :
    ∀ vm : ViewManager,
    SwitchViews LEVEL_MENU_OPTIONS (pre ++ post) vm
      = SwitchViews LEVEL_MENU_OPTIONS post (SwitchViews LEVEL_MENU_OPTIONS pre vm) := by
  induction pre with
  | nil => intro vm; rfl
  | cons r rs ih =>
    intro vm
    rw [List.cons_append]
    simp only [SwitchViews]
    exact ih _

theorem SwitchViews_state_of_not_changes (LEVEL_MENU_OPTIONS : Nat)
    (post : List ViewSwitch) : ∀ vm : ViewManager,
    (∀ q ∈ post, changesState q.state = false) →
    (SwitchViews LEVEL_MENU_OPTIONS post vm).state = vm.state := by
  induction post with
  | nil => intro vm _; rfl
  | cons q qs ih =>
    intro vm h
    simp only [SwitchViews]
    rw [ih _ (fun x hx => h x (List.mem_cons_of_mem _ hx)),
      SwitchView_state_of_not_changes _ _ _ (h q (List.mem_cons_self _ _))]

/-- C10 fails as stated: an Exit request alone leaves the state `MAIN_MENU`, not
the target of the request, and a `WON` request on the last level leaves
`FINISH`. -/
theorem C10_last_effective_counterexample :
    (SwitchViews 3 [{ state := State.EXIT, level_number := 0 }] freshManager).state
      = State.MAIN_MENU ∧
    (SwitchViews 1 [{ state := State.WON, level_number := 0 }] freshManager).state
      = State.FINISH := by
  decide

/-- C10, amended: the requests that change `state` are those with target
`MAIN_MENU`, `LEVEL_MENU`, `PLAYING`, `RESUME`, `PAUSED`, `WON` or `FAILED`;
`EXIT`, `FINISH` and `CONTINUE` leave it as it is.  After a sequence of requests
applied by `SwitchView`, `state` is the resting state of the last
state-changing request — its target, except that `RESUME` rests in `PLAYING`
and `WON` rests in `FINISH` when `current_level` is at least
`LEVEL_MENU_OPTIONS` at that moment — and it is the starting state when no
request of the sequence changes the state. -/
theorem C10_last_effective (LEVEL_MENU_OPTIONS : Nat) (vm : ViewManager)
    (post : List ViewSwitch) (hpost : ∀ q ∈ post, changesState q.state = false) :
    (SwitchViews LEVEL_MENU_OPTIONS post vm).state = vm.state ∧
    (∀ (pre : List ViewSwitch) (r : ViewSwitch), changesState r.state = true →
      (SwitchViews LEVEL_MENU_OPTIONS (pre ++ r :: post) vm).state
        = restingState LEVEL_MENU_OPTIONS
            (SwitchViews LEVEL_MENU_OPTIONS pre vm).current_level r.state) := by
  refine ⟨SwitchViews_state_of_not_changes LEVEL_MENU_OPTIONS post vm hpost, ?_⟩
  intro pre r hr
  rw [SwitchViews_append]
  simp only [SwitchViews]
  rw [SwitchViews_state_of_not_changes LEVEL_MENU_OPTIONS post _ hpost,
    SwitchView_state_of_changes LEVEL_MENU_OPTIONS r _ hr]

/-- Witness of C10: level 2 of 2 is requested, then `WON`, then Exit. -/
theorem C10_last_effective_witness :
    (SwitchViews 2
      ([{ state := State.PLAYING, level_number := 2 }] ++
        { state := State.WON, level_number := 0 } ::
        [{ state := State.EXIT, level_number := 0 }]) freshManager).state
      = restingState 2
          (SwitchViews 2 [{ state := State.PLAYING, level_number := 2 }]
            freshManager).current_level State.WON :=
  (C10_last_effective 2 freshManager [{ state := State.EXIT, level_number := 0 }]
    (by decide)).2 [{ state := State.PLAYING, level_number := 2 }]
    { state := State.WON, level_number := 0 } (by decide)

/-! ### The game-state poll -/

/-- C16: when the logic center reports `WON` after the first part of `Update`, the
logic center is reset and `Update` ends in `WON`, or in `FINISH` when
`current_level` is at least `LEVEL_MENU_OPTIONS`; when it reports `FAILED`, the
logic center is reset and `Update` ends in `FAILED`; both whatever state the
first part left.  When it reports anything else, the second part changes
nothing. -/
theorem C16_poll_overrides (LEVEL_MENU_OPTIONS : Nat) (ext : Collaborators)
    (elapsed : Int) (events : List Event) (vm : ViewManager) :
    (ext.GetGameState (UpdateViews LEVEL_MENU_OPTIONS ext elapsed events vm).trace
        = State.WON →
      Update LEVEL_MENU_OPTIONS ext elapsed events vm =
        SwitchToWinMenuView LEVEL_MENU_OPTIONS
          ((UpdateViews LEVEL_MENU_OPTIONS ext elapsed events vm).log Effect.LogicReset) ∧
      (Update LEVEL_MENU_OPTIONS ext elapsed events vm).state =
        (if (UpdateViews LEVEL_MENU_OPTIONS ext elapsed events vm).current_level
            ≥ LEVEL_MENU_OPTIONS then State.FINISH else State.WON) ∧
      ∃ rest : List Effect,
        (Update LEVEL_MENU_OPTIONS ext elapsed events vm).trace =
          (UpdateViews LEVEL_MENU_OPTIONS ext elapsed events vm).trace ++
            Effect.LogicReset :: rest) ∧
    (ext.GetGameState (UpdateViews LEVEL_MENU_OPTIONS ext elapsed events vm).trace
        = State.FAILED →
      Update LEVEL_MENU_OPTIONS ext elapsed events vm =
        { UpdateViews LEVEL_MENU_OPTIONS ext elapsed events vm with
          state := State.FAILED
          trace := (UpdateViews LEVEL_MENU_OPTIONS ext elapsed events vm).trace ++
            [Effect.LogicReset,
             Effect.ViewInitialize View.fail_menu_view
               (some (UpdateViews LEVEL_MENU_OPTIONS ext elapsed events vm).current_level)] }) ∧
    (ext.GetGameState (UpdateViews LEVEL_MENU_OPTIONS ext elapsed events vm).trace
        ≠ State.WON →
      ext.GetGameState (UpdateViews LEVEL_MENU_OPTIONS ext elapsed events vm).trace
        ≠ State.FAILED →
      Update LEVEL_MENU_OPTIONS ext elapsed events vm =
        UpdateViews LEVEL_MENU_OPTIONS ext elapsed events vm) := by
  refine ⟨?_, ?_, ?_⟩
  · intro hwon
    have hrun : Update LEVEL_MENU_OPTIONS ext elapsed events vm =
        SwitchToWinMenuView LEVEL_MENU_OPTIONS
          ((UpdateViews LEVEL_MENU_OPTIONS ext elapsed events vm).log Effect.LogicReset) := by
      simp only [Update, UpdateGameState, hwon]
    refine ⟨hrun, ?_, ?_⟩
    · rw [hrun, SwitchToWinMenuView_state]
      rfl
    · obtain ⟨rest, hrest, -⟩ := SwitchToWinMenuView_trace LEVEL_MENU_OPTIONS
        ((UpdateViews LEVEL_MENU_OPTIONS ext elapsed events vm).log Effect.LogicReset)
      refine ⟨rest, ?_⟩
      rw [hrun, hrest]
      simp [ViewManager.log]
  · intro hfailed
    simp [Update, UpdateGameState, hfailed, SwitchToFailMenuView, ViewManager.log]
  · intro hw hf
    unfold Update UpdateGameState
    split
    · rename_i h; exact absurd h hw
    · rename_i h; exact absurd h hf
    · rfl

/-- Witness of C16: the pause menu is shown and the logic center reports `WON`,
`FAILED` or `PLAYING`. -/
theorem C16_poll_overrides_witness :
    (Update 3 (quietCollaborators State.WON) 16 [] pausedManager).state = State.WON ∧
    (Update 3 (quietCollaborators State.FAILED) 16 [] pausedManager).state
      = State.FAILED ∧
    Update 3 (quietCollaborators State.PLAYING) 16 [] pausedManager
      = UpdateViews 3 (quietCollaborators State.PLAYING) 16 [] pausedManager := by
  have hw := ((C16_poll_overrides 3 (quietCollaborators State.WON) 16 []
    pausedManager).1 (by decide)).2.1
  have hf := (C16_poll_overrides 3 (quietCollaborators State.FAILED) 16 []
    pausedManager).2.1 (by decide)
  have hp := (C16_poll_overrides 3 (quietCollaborators State.PLAYING) 16 []
    pausedManager).2.2 (by decide) (by decide)
  refine ⟨?_, ?_, hp⟩
  · rw [hw]; rfl
  · rw [hf]

/-! ### Requests that keep the game as it is -/

/-- C18: `SwitchView` with a target that has no case of its own (`CONTINUE`, or
`FINISH` requested directly) announces the request and does nothing else:
`state`, `current_level`, `unlocked` and `running` are as before, the logic
center and the progress file are not touched and no view is initialized. -/
theorem C18_unexpected_target (LEVEL_MENU_OPTIONS : Nat) (vm : ViewManager) (n : Nat) :
    SwitchView LEVEL_MENU_OPTIONS { state := State.CONTINUE, level_number := n } vm =
      { vm with
        trace := vm.trace ++ [Effect.Fire { state := State.CONTINUE, level_number := n }] } ∧
    SwitchView LEVEL_MENU_OPTIONS { state := State.FINISH, level_number := n } vm =
      { vm with
        trace := vm.trace ++ [Effect.Fire { state := State.FINISH, level_number := n }] } := by
  constructor <;> simp [SwitchView, ViewManager.log]

/-- C19: `SwitchView` with target `RESUME` announces the request, sets
`state = PLAYING` and does nothing else: the logic center is neither reset nor
initialized, no view is initialized, and `current_level`, `unlocked` and
`running` are as before. -/
theorem C19_resume (LEVEL_MENU_OPTIONS : Nat) (vm : ViewManager) (n : Nat) :
    SwitchView LEVEL_MENU_OPTIONS { state := State.RESUME, level_number := n } vm =
      { vm with
        state := State.PLAYING
        trace := vm.trace ++ [Effect.Fire { state := State.RESUME, level_number := n }] } := by
  simp [SwitchView, ResumePlayerView, ViewManager.log]

/-! ### Kinds of calls -/

theorem SwitchToWinMenuView_kinds (LEVEL_MENU_OPTIONS : Nat) (vm : ViewManager) :
    ∃ rest : List Effect,
      (SwitchToWinMenuView LEVEL_MENU_OPTIONS vm).trace = vm.trace ++ rest ∧
      rest.all Effect.isSwitchEffect = true := by
  unfold SwitchToWinMenuView WriteUnlockedLevel
  dsimp only
  split_ifs
  · exact ⟨[Effect.ViewInitialize View.finish_menu_view none],
      by simp [SwitchToFinishMenuView, ViewManager.log], by simp [Effect.isSwitchEffect]⟩
  · exact ⟨[Effect.FileWrite (to_string LEVEL_MENU_OPTIONS),
      Effect.ViewInitialize View.win_menu_view (some vm.current_level)],
      by simp [ViewManager.log], by simp [Effect.isSwitchEffect]⟩
  · exact ⟨[Effect.FileWrite (to_string ((vm.current_level + 1) % UINT_SIZE)),
      Effect.ViewInitialize View.win_menu_view (some vm.current_level)],
      by simp [ViewManager.log], by simp [Effect.isSwitchEffect]⟩
  · exact ⟨[Effect.ViewInitialize View.win_menu_view (some vm.current_level)],
      by simp [ViewManager.log], by simp [Effect.isSwitchEffect]⟩
  · exact ⟨[Effect.FileWrite (to_string LEVEL_MENU_OPTIONS),
      Effect.ViewInitialize View.win_menu_view (some vm.current_level)],
      by simp [ViewManager.log], by simp [Effect.isSwitchEffect]⟩
  · exact ⟨[Effect.FileWrite (to_string vm.unlocked),
      Effect.ViewInitialize View.win_menu_view (some vm.current_level)],
      by simp [ViewManager.log], by simp [Effect.isSwitchEffect]⟩
  · exact ⟨[Effect.ViewInitialize View.win_menu_view (some vm.current_level)],
      by simp [ViewManager.log], by simp [Effect.isSwitchEffect]⟩

theorem SwitchView_kinds (LEVEL_MENU_OPTIONS : Nat) (view_switch : ViewSwitch)
    (vm : ViewManager) :
    ∃ rest : List Effect,
      (SwitchView LEVEL_MENU_OPTIONS view_switch vm).trace = vm.trace ++ rest ∧
      rest.all Effect.isSwitchEffect = true := by
  obtain ⟨s, n⟩ := view_switch
  cases s
  case WON =>
    obtain ⟨rest, hrest, hall⟩ := SwitchToWinMenuView_kinds LEVEL_MENU_OPTIONS
      (vm.log (Effect.Fire { state := State.WON, level_number := n }))
    refine ⟨Effect.Fire { state := State.WON, level_number := n } :: rest, ?_, ?_⟩
    · show (SwitchToWinMenuView LEVEL_MENU_OPTIONS
        (vm.log (Effect.Fire { state := State.WON, level_number := n }))).trace = _
      rw [hrest]
      simp [ViewManager.log]
    · simpa [Effect.isSwitchEffect] using hall
  case PLAYING =>
    by_cases hn : n > 0
    · exact ⟨[Effect.Fire { state := State.PLAYING, level_number := n },
        Effect.LogicReset, Effect.LogicInitialize n,
        Effect.ViewInitialize View.level_view none],
        by simp [SwitchView, SwitchToLevelView, ViewManager.log, hn],
        by simp [Effect.isSwitchEffect]⟩
    · exact ⟨[Effect.Fire { state := State.PLAYING, level_number := n },
        Effect.LogicReset, Effect.LogicInitialize vm.current_level,
        Effect.ViewInitialize View.level_view none],
        by simp [SwitchView, SwitchToLevelView, ViewManager.log, hn],
        by simp [Effect.isSwitchEffect]⟩
  case MAIN_MENU =>
    exact ⟨[Effect.Fire { state := State.MAIN_MENU, level_number := n },
      Effect.ViewInitialize View.main_menu_view none],
      by simp [SwitchView, SwitchToMainMenuView, ViewManager.log],
      by simp [Effect.isSwitchEffect]⟩
  case LEVEL_MENU =>
    exact ⟨[Effect.Fire { state := State.LEVEL_MENU, level_number := n },
      Effect.ViewInitialize View.level_menu_view (some vm.unlocked)],
      by simp [SwitchView, SwitchToLevelMenuView, ViewManager.log],
      by simp [Effect.isSwitchEffect]⟩
  case RESUME =>
    exact ⟨[Effect.Fire { state := State.RESUME, level_number := n }],
      by simp [SwitchView, ResumePlayerView, ViewManager.log],
      by simp [Effect.isSwitchEffect]⟩
  case PAUSED =>
    exact ⟨[Effect.Fire { state := State.PAUSED, level_number := n },
      Effect.ViewInitialize View.pause_menu_view (some vm.current_level)],
      by simp [SwitchView, SwitchToPauseMenuView, ViewManager.log],
      by simp [Effect.isSwitchEffect]⟩
  case FAILED =>
    exact ⟨[Effect.Fire { state := State.FAILED, level_number := n },
      Effect.ViewInitialize View.fail_menu_view (some vm.current_level)],
      by simp [SwitchView, SwitchToFailMenuView, ViewManager.log],
      by simp [Effect.isSwitchEffect]⟩
  case FINISH =>
    exact ⟨[Effect.Fire { state := State.FINISH, level_number := n }],
      by simp [SwitchView, ViewManager.log], by simp [Effect.isSwitchEffect]⟩
  case EXIT =>
    exact ⟨[Effect.Fire { state := State.EXIT, level_number := n }, Effect.WindowClose],
      by simp [SwitchView, ViewManager.log], by simp [Effect.isSwitchEffect]⟩
  case CONTINUE =>
    exact ⟨[Effect.Fire { state := State.CONTINUE, level_number := n }],
      by simp [SwitchView, ViewManager.log], by simp [Effect.isSwitchEffect]⟩

theorem offered_of_kinds (rest : List Effect)
    (h : rest.all Effect.isSwitchEffect = true) : offered rest = [] := by
  induction rest with
  | nil => rfl
  | cons e es ih =>
    rw [List.all_cons, Bool.and_eq_true] at h
    unfold offered at ih ⊢
    cases e <;> simp_all [Effect.isSwitchEffect]

theorem advanced_of_kinds (rest : List Effect)
    (h : rest.all Effect.isSwitchEffect = true) : advanced rest = [] := by
  induction rest with
  | nil => rfl
  | cons e es ih =>
    rw [List.all_cons, Bool.and_eq_true] at h
    unfold advanced at ih ⊢
    cases e <;> simp_all [Effect.isSwitchEffect]

theorem offered_append (a b : List Effect) : offered (a ++ b) = offered a ++ offered b := by
  simp [offered, List.filterMap_append]

theorem advanced_append (a b : List Effect) :
    advanced (a ++ b) = advanced a ++ advanced b := by
  simp [advanced, List.filter_append]

theorem SwitchView_offered (LEVEL_MENU_OPTIONS : Nat) (view_switch : ViewSwitch)
    (vm : ViewManager) :
    offered (SwitchView LEVEL_MENU_OPTIONS view_switch vm).trace = offered vm.trace ∧
    advanced (SwitchView LEVEL_MENU_OPTIONS view_switch vm).trace = advanced vm.trace := by
  obtain ⟨rest, hrest, hall⟩ := SwitchView_kinds LEVEL_MENU_OPTIONS view_switch vm
  rw [hrest, offered_append, advanced_append, offered_of_kinds rest hall,
    advanced_of_kinds rest hall]
  simp

/-! ### Progress and level across the operations -/

theorem SwitchToWinMenuView_current_level (LEVEL_MENU_OPTIONS : Nat) (vm : ViewManager) :
    (SwitchToWinMenuView LEVEL_MENU_OPTIONS vm).current_level = vm.current_level := by
  unfold SwitchToWinMenuView
  dsimp only
  split_ifs <;>
    simp [SwitchToFinishMenuView, ViewManager.log, WriteUnlockedLevel_fields]

theorem SwitchToWinMenuView_unlocked (LEVEL_MENU_OPTIONS : Nat) (vm : ViewManager) :
    vm.unlocked ≤ (SwitchToWinMenuView LEVEL_MENU_OPTIONS vm).unlocked ∧
    (vm.unlocked ≤ LEVEL_MENU_OPTIONS →
      (SwitchToWinMenuView LEVEL_MENU_OPTIONS vm).unlocked ≤ LEVEL_MENU_OPTIONS) := by
  have hmod : (vm.current_level + 1) % UINT_SIZE ≤ vm.current_level + 1 :=
    Nat.mod_le _ _
  unfold SwitchToWinMenuView
  dsimp only
  split_ifs with h1 h2
  · simp [SwitchToFinishMenuView, ViewManager.log]
  · simp only [ViewManager.log, WriteUnlockedLevel_fields]
    constructor
    · omega
    · intro _; omega
  · simp [ViewManager.log, WriteUnlockedLevel_fields]

theorem SwitchView_fields_of_ne_WON (LEVEL_MENU_OPTIONS : Nat) (view_switch : ViewSwitch)
    (vm : ViewManager) (h : view_switch.state ≠ State.WON) :
    (SwitchView LEVEL_MENU_OPTIONS view_switch vm).unlocked = vm.unlocked ∧
    (SwitchView LEVEL_MENU_OPTIONS view_switch vm).progress_file = vm.progress_file ∧
    written (SwitchView LEVEL_MENU_OPTIONS view_switch vm).trace = written vm.trace := by
  obtain ⟨s, n⟩ := view_switch
  cases s
  case WON => exact absurd rfl h
  case PLAYING =>
    by_cases hn : n > 0 <;>
      simp [SwitchView, SwitchToLevelView, ViewManager.log, written, hn]
  all_goals
    simp [SwitchView, SwitchToMainMenuView, SwitchToLevelMenuView, ResumePlayerView,
      SwitchToPauseMenuView, SwitchToFailMenuView, ViewManager.log, written]

theorem SwitchView_current_level (LEVEL_MENU_OPTIONS : Nat) (view_switch : ViewSwitch)
    (vm : ViewManager) :
    (SwitchView LEVEL_MENU_OPTIONS view_switch vm).current_level =
      if view_switch.state = State.PLAYING ∧ view_switch.level_number > 0 then
        view_switch.level_number
      else vm.current_level := by
  obtain ⟨s, n⟩ := view_switch
  cases s
  case WON =>
    show (SwitchToWinMenuView LEVEL_MENU_OPTIONS
      (vm.log (Effect.Fire { state := State.WON, level_number := n }))).current_level = _
    rw [SwitchToWinMenuView_current_level]
    simp [ViewManager.log]
  case PLAYING =>
    by_cases hn : n > 0 <;>
      simp [SwitchView, SwitchToLevelView, ViewManager.log, hn]
  all_goals
    simp [SwitchView, SwitchToMainMenuView, SwitchToLevelMenuView, ResumePlayerView,
      SwitchToPauseMenuView, SwitchToFailMenuView, ViewManager.log]

theorem UpdateGameState_current_level (LEVEL_MENU_OPTIONS : Nat) (ext : Collaborators)
    (vm : ViewManager) :
    (UpdateGameState LEVEL_MENU_OPTIONS ext vm).current_level = vm.current_level := by
  unfold UpdateGameState
  split
  · rw [SwitchToWinMenuView_current_level]; rfl
  · rfl
  · rfl

/-- C20: a `SwitchView` request whose target is not `WON` leaves `unlocked` and the
progress file as they were and writes nothing; and `current_level` is changed
by no request other than `PLAYING` with a level number above 0, nor by the
game-state poll of `Update`. -/
theorem C20_only_won_touches_progress (LEVEL_MENU_OPTIONS : Nat) (ext : Collaborators)
    (view_switch : ViewSwitch) (vm : ViewManager) :
    (view_switch.state ≠ State.WON →
      (SwitchView LEVEL_MENU_OPTIONS view_switch vm).unlocked = vm.unlocked ∧
      (SwitchView LEVEL_MENU_OPTIONS view_switch vm).progress_file = vm.progress_file ∧
      written (SwitchView LEVEL_MENU_OPTIONS view_switch vm).trace = written vm.trace) ∧
    (¬ (view_switch.state = State.PLAYING ∧ view_switch.level_number > 0) →
      (SwitchView LEVEL_MENU_OPTIONS view_switch vm).current_level = vm.current_level) ∧
    (UpdateGameState LEVEL_MENU_OPTIONS ext vm).current_level = vm.current_level := by
  refine ⟨SwitchView_fields_of_ne_WON LEVEL_MENU_OPTIONS view_switch vm, ?_,
    UpdateGameState_current_level LEVEL_MENU_OPTIONS ext vm⟩
  intro h
  rw [SwitchView_current_level, if_neg h]

/-- Witness of C20: the level menu is requested while level 1 is played. -/
theorem C20_only_won_touches_progress_witness :
    (SwitchView 3 { state := State.LEVEL_MENU, level_number := 2 } playingManager).unlocked
      = playingManager.unlocked ∧
    (SwitchView 3 { state := State.LEVEL_MENU, level_number := 2 }
      playingManager).current_level = playingManager.current_level :=
  ⟨((C20_only_won_touches_progress 3 (quietCollaborators State.PLAYING)
      { state := State.LEVEL_MENU, level_number := 2 } playingManager).1 (by decide)).1,
   (C20_only_won_touches_progress 3 (quietCollaborators State.PLAYING)
      { state := State.LEVEL_MENU, level_number := 2 } playingManager).2.1 (by decide)⟩

/-! ### Invariants of a frame -/

theorem HandleWindowEvents_invariant (LEVEL_MENU_OPTIONS : Nat) (ext : Collaborators)
    (view : View) (P : ViewManager → Prop)
    (hfields : ∀ (vm : ViewManager) (running window_open : Bool) (trace : List Effect),
      P vm → P { vm with running := running, window_open := window_open, trace := trace })
    (hswitch : ∀ (vm : ViewManager) (e : Event) (t : List Effect),
      P vm → P (SwitchView LEVEL_MENU_OPTIONS (ext.HandleWindowEvents view e t) vm))
    (events : List Event) :
    ∀ vm : ViewManager, P vm →
      P (HandleWindowEvents LEVEL_MENU_OPTIONS ext view events vm) := by
  induction events with
  | nil => intro vm h; exact h
  | cons e es ih =>
    intro vm h
    unfold HandleWindowEvents
    by_cases hopen : vm.window_open = false
    · rw [if_pos hopen]; exact h
    · rw [if_neg hopen]
      cases e with
      | Closed =>
        exact ih _ (hfields vm false false _ h)
      | Other code =>
        dsimp only
        apply ih
        have h1 : P (vm.log (Effect.ViewHandleWindowEvents view (Event.Other code))) :=
          hfields vm vm.running vm.window_open _ h
        split_ifs
        · exact hswitch _ _ _ h1
        · exact h1

theorem Update_invariant (LEVEL_MENU_OPTIONS : Nat) (ext : Collaborators)
    (P : ViewManager → Prop)
    (hfields : ∀ (vm : ViewManager) (running window_open : Bool) (trace : List Effect),
      P vm → P { vm with running := running, window_open := window_open, trace := trace })
    (hswitch : ∀ (vm : ViewManager) (view : View) (e : Event) (t : List Effect),
      P vm → P (SwitchView LEVEL_MENU_OPTIONS (ext.HandleWindowEvents view e t) vm))
    (hwin : ∀ vm : ViewManager, P vm → P (SwitchToWinMenuView LEVEL_MENU_OPTIONS vm))
    (hfail : ∀ vm : ViewManager, P vm → P (SwitchToFailMenuView vm))
    (elapsed : Int) (events : List Event) (vm : ViewManager) (h : P vm) :
    P (Update LEVEL_MENU_OPTIONS ext elapsed events vm) := by
  have hlog : ∀ (w : ViewManager) (e : Effect), P w → P (w.log e) :=
    fun w e hw => hfields w w.running w.window_open _ hw
  have hpump : ∀ view : View,
      P (HandleWindowEvents LEVEL_MENU_OPTIONS ext view events vm) :=
    fun view => HandleWindowEvents_invariant LEVEL_MENU_OPTIONS ext view P hfields
      (fun w e t hw => hswitch w view e t hw) events vm h
  have hviews : P (UpdateViews LEVEL_MENU_OPTIONS ext elapsed events vm) := by
    unfold UpdateViews
    split
    · dsimp only; split_ifs
      · exact hlog _ _ (hpump _)
      · exact hpump _
    · dsimp only; split_ifs
      · exact hlog _ _ (hpump _)
      · exact hpump _
    · exact hlog _ _ (hpump _)
    · exact hlog _ _ (hpump _)
    · exact hlog _ _ (hpump _)
    · exact hlog _ _ (hpump _)
    · dsimp only; split_ifs
      · exact hlog _ _ (hlog _ _ (hpump _))
      · exact hpump _
    · exact h
  unfold Update UpdateGameState
  split
  · exact hwin _ (hlog _ _ hviews)
  · exact hfail _ (hlog _ _ hviews)
  · exact hviews

theorem Render_fields (vm : ViewManager) :
    (Render vm).unlocked = vm.unlocked ∧ (Render vm).current_level = vm.current_level := by
  unfold Render
  split <;> simp [ViewManager.log]

theorem SwitchView_unlocked (LEVEL_MENU_OPTIONS : Nat) (view_switch : ViewSwitch)
    (vm : ViewManager) :
    vm.unlocked ≤ (SwitchView LEVEL_MENU_OPTIONS view_switch vm).unlocked ∧
    (vm.unlocked ≤ LEVEL_MENU_OPTIONS →
      (SwitchView LEVEL_MENU_OPTIONS view_switch vm).unlocked ≤ LEVEL_MENU_OPTIONS) := by
  by_cases hs : view_switch.state = State.WON
  · obtain ⟨s, n⟩ := view_switch
    simp only at hs
    subst hs
    exact SwitchToWinMenuView_unlocked LEVEL_MENU_OPTIONS
      (vm.log (Effect.Fire { state := State.WON, level_number := n }))
  · rw [(SwitchView_fields_of_ne_WON LEVEL_MENU_OPTIONS view_switch vm hs).1]
    exact ⟨le_refl _, fun h => h⟩

/-- C12: in a context with `1 ≤ unlocked ≤ LEVEL_MENU_OPTIONS`, after `SwitchView`
with any request, after `Update` with any events and any answers of the
collaborators, and after `Render`, `unlocked` is at least what it was and still
within `[1, LEVEL_MENU_OPTIONS]`. -/
theorem C12_unlocked_invariant (LEVEL_MENU_OPTIONS : Nat) (ext : Collaborators)
    (view_switch : ViewSwitch) (elapsed : Int) (events : List Event) (vm : ViewManager)
    (h1 : 1 ≤ vm.unlocked) (hM : vm.unlocked ≤ LEVEL_MENU_OPTIONS) :
    (vm.unlocked ≤ (SwitchView LEVEL_MENU_OPTIONS view_switch vm).unlocked ∧
      1 ≤ (SwitchView LEVEL_MENU_OPTIONS view_switch vm).unlocked ∧
      (SwitchView LEVEL_MENU_OPTIONS view_switch vm).unlocked ≤ LEVEL_MENU_OPTIONS) ∧
    (vm.unlocked ≤ (Update LEVEL_MENU_OPTIONS ext elapsed events vm).unlocked ∧
      1 ≤ (Update LEVEL_MENU_OPTIONS ext elapsed events vm).unlocked ∧
      (Update LEVEL_MENU_OPTIONS ext elapsed events vm).unlocked ≤ LEVEL_MENU_OPTIONS) ∧
    (vm.unlocked ≤ (Render vm).unlocked ∧
      1 ≤ (Render vm).unlocked ∧
      (Render vm).unlocked ≤ LEVEL_MENU_OPTIONS) := by
  refine ⟨?_, ?_, ?_⟩
  · have h := SwitchView_unlocked LEVEL_MENU_OPTIONS view_switch vm
    exact ⟨h.1, le_trans h1 h.1, h.2 hM⟩
  · have h := Update_invariant LEVEL_MENU_OPTIONS ext
      (fun w => vm.unlocked ≤ w.unlocked ∧ w.unlocked ≤ LEVEL_MENU_OPTIONS)
      (fun w _ _ _ hw => hw)
      (fun w view e t hw =>
        ⟨le_trans hw.1 (SwitchView_unlocked LEVEL_MENU_OPTIONS _ w).1,
          (SwitchView_unlocked LEVEL_MENU_OPTIONS _ w).2 hw.2⟩)
      (fun w hw =>
        ⟨le_trans hw.1 (SwitchToWinMenuView_unlocked LEVEL_MENU_OPTIONS w).1,
          (SwitchToWinMenuView_unlocked LEVEL_MENU_OPTIONS w).2 hw.2⟩)
      (fun w hw => hw)
      elapsed events vm ⟨le_refl _, hM⟩
    exact ⟨h.1, le_trans h1 h.1, h.2⟩
  · rw [(Render_fields vm).1]
    exact ⟨le_refl _, h1, hM⟩

/-- Witness of C12: level 1 of 3 is won with only level 1 unlocked. -/
theorem C12_unlocked_invariant_witness :
    playingManager.unlocked
      ≤ (Update 3 (quietCollaborators State.WON) 16 [] playingManager).unlocked ∧
    (Update 3 (quietCollaborators State.WON) 16 [] playingManager).unlocked ≤ 3 :=
  ⟨(C12_unlocked_invariant 3 (quietCollaborators State.WON)
      { state := State.WON, level_number := 0 } 16 [] playingManager
      (by decide) (by decide)).2.1.1,
   (C12_unlocked_invariant 3 (quietCollaborators State.WON)
      { state := State.WON, level_number := 0 } 16 [] playingManager
      (by decide) (by decide)).2.1.2.2⟩

theorem validLevel_SwitchView (LEVEL_MENU_OPTIONS : Nat) (view_switch : ViewSwitch)
    (vm : ViewManager) (hv : validLevel LEVEL_MENU_OPTIONS vm)
    (hr : requestsValidLevel LEVEL_MENU_OPTIONS view_switch) :
    validLevel LEVEL_MENU_OPTIONS (SwitchView LEVEL_MENU_OPTIONS view_switch vm) := by
  unfold validLevel at *
  rw [SwitchView_current_level]
  split_ifs with h
  · exact ⟨h.2, hr h.1⟩
  · exact hv

/-- C13 fails as stated: a `PLAYING` request for level 7 of 3 is taken as it is
and leaves `current_level = 7`, and a `PLAYING` request with level number 0
keeps a `current_level` of 0. -/
theorem C13_current_level_counterexample :
    (SwitchView 3 { state := State.PLAYING, level_number := 7 } freshManager).state
      = State.PLAYING ∧
    (SwitchView 3 { state := State.PLAYING, level_number := 7 } freshManager).current_level
      = 7 ∧
    ¬ validLevel 3
      (SwitchView 3 { state := State.PLAYING, level_number := 7 } freshManager) ∧
    ¬ validLevel 3
      (SwitchView 3 { state := State.PLAYING, level_number := 0 }
        { freshManager with current_level := 0 }) := by
  decide

/-- C13, amended: the level number of a `PLAYING` request is stored without a
range check, so `current_level` is a valid level index after entering
`PLAYING` when the requested level `n` satisfies `1 ≤ n ≤ LEVEL_MENU_OPTIONS`,
or when `n = 0` and `current_level` was valid before.  A valid `current_level`
stays valid under `SwitchView` with a request that asks for no level above
`LEVEL_MENU_OPTIONS`, under `Update` when the views only return such requests,
and under `Render`. -/
theorem C13_current_level (LEVEL_MENU_OPTIONS : Nat) (ext : Collaborators)
    (view_switch : ViewSwitch) (elapsed : Int) (events : List Event)
    (vm : ViewManager) (n : Nat) :
    (1 ≤ n → n ≤ LEVEL_MENU_OPTIONS →
      validLevel LEVEL_MENU_OPTIONS
        (SwitchView LEVEL_MENU_OPTIONS { state := State.PLAYING, level_number := n } vm)) ∧
    (validLevel LEVEL_MENU_OPTIONS vm →
      validLevel LEVEL_MENU_OPTIONS
        (SwitchView LEVEL_MENU_OPTIONS { state := State.PLAYING, level_number := 0 } vm)) ∧
    (validLevel LEVEL_MENU_OPTIONS vm →
      requestsValidLevel LEVEL_MENU_OPTIONS view_switch →
      validLevel LEVEL_MENU_OPTIONS (SwitchView LEVEL_MENU_OPTIONS view_switch vm)) ∧
    (validLevel LEVEL_MENU_OPTIONS vm →
      (∀ (view : View) (e : Event) (t : List Effect),
        requestsValidLevel LEVEL_MENU_OPTIONS (ext.HandleWindowEvents view e t)) →
      validLevel LEVEL_MENU_OPTIONS (Update LEVEL_MENU_OPTIONS ext elapsed events vm)) ∧
    (validLevel LEVEL_MENU_OPTIONS vm → validLevel LEVEL_MENU_OPTIONS (Render vm)) := by
  refine ⟨?_, ?_, ?_, ?_, ?_⟩
  · intro h1 hM
    unfold validLevel
    rw [SwitchView_current_level]
    simp only [true_and]
    rw [if_pos (by omega)]
    exact ⟨h1, hM⟩
  · intro hv
    exact validLevel_SwitchView LEVEL_MENU_OPTIONS _ vm hv (fun _ => Nat.zero_le _)
  · intro hv hr
    exact validLevel_SwitchView LEVEL_MENU_OPTIONS view_switch vm hv hr
  · intro hv hext
    exact Update_invariant LEVEL_MENU_OPTIONS ext (validLevel LEVEL_MENU_OPTIONS)
      (fun w _ _ _ hw => hw)
      (fun w view e t hw => validLevel_SwitchView LEVEL_MENU_OPTIONS _ w hw (hext view e t))
      (fun w hw => by
        unfold validLevel at *
        rw [SwitchToWinMenuView_current_level]
        exact hw)
      (fun w hw => hw)
      elapsed events vm hv
  · intro hv
    unfold validLevel at *
    rw [(Render_fields vm).2]
    exact hv

/-- Witness of C13: level 2 of 3 is requested from the main menu, then a frame
passes in which the level view answers an event with a request for level 3. -/
theorem C13_current_level_witness :
    validLevel 3
      (SwitchView 3 { state := State.PLAYING, level_number := 2 } freshManager) ∧
    validLevel 3
      (Update 3 (scriptedCollaborators { state := State.PLAYING, level_number := 3 })
        16 [Event.Other 1] playingManager) :=
  ⟨(C13_current_level 3 (quietCollaborators State.PLAYING)
      { state := State.PLAYING, level_number := 2 } 16 [] freshManager 2).1
      (by decide) (by decide),
   (C13_current_level 3
      (scriptedCollaborators { state := State.PLAYING, level_number := 3 })
      { state := State.PLAYING, level_number := 3 } 16 [Event.Other 1]
      playingManager 3).2.2.2.1 (by decide) (fun _ _ _ _ => Nat.le_refl 3)⟩

/-! ### A first session -/

theorem HandleWindowEvents_quiet (LEVEL_MENU_OPTIONS : Nat) (ext : Collaborators)
    (view : View)
    (hquiet : ∀ (e : Event) (t : List Effect),
      (ext.HandleWindowEvents view e t).state = State.CONTINUE)
    (events : List Event) (vm : ViewManager) :
    (HandleWindowEvents LEVEL_MENU_OPTIONS ext view events vm).state = vm.state ∧
    (HandleWindowEvents LEVEL_MENU_OPTIONS ext view events vm).current_level
      = vm.current_level ∧
    (HandleWindowEvents LEVEL_MENU_OPTIONS ext view events vm).unlocked = vm.unlocked ∧
    (HandleWindowEvents LEVEL_MENU_OPTIONS ext view events vm).progress_file
      = vm.progress_file ∧
    (HandleWindowEvents LEVEL_MENU_OPTIONS ext view events vm).progress_writable
      = vm.progress_writable := by
  refine HandleWindowEvents_invariant LEVEL_MENU_OPTIONS ext view
    (fun w => w.state = vm.state ∧ w.current_level = vm.current_level ∧
      w.unlocked = vm.unlocked ∧ w.progress_file = vm.progress_file ∧
      w.progress_writable = vm.progress_writable)
    (fun w _ _ _ hw => hw) ?_ events vm ⟨rfl, rfl, rfl, rfl, rfl⟩
  intro w e t hw
  have hs := hquiet e t
  generalize ext.HandleWindowEvents view e t = r at hs
  obtain ⟨s, n⟩ := r
  simp only at hs
  subst hs
  simpa [SwitchView, ViewManager.log] using hw

/-- C11: with at least two levels and no progress file, `Initialize` gives
`unlocked = 1`; `SwitchView` with `PLAYING` and level 1 gives `state = PLAYING`
and `current_level = 1`; an `Update` in which the level view asks for no switch
and the logic center reports `WON` gives `state = WON`, `unlocked = 2` and,
the file being writable, a progress file holding exactly the text `2`;
`SwitchView` with `LEVEL_MENU` then gives `state = LEVEL_MENU` with the level
menu view initialized with 2. -/
theorem C11_first_session (LEVEL_MENU_OPTIONS : Nat) (h2 : 2 ≤ LEVEL_MENU_OPTIONS)
    (hMAX : LEVEL_MENU_OPTIONS ≤ UINT_MAX) (ext : Collaborators) (elapsed : Int)
    (events : List Event) (n : Nat) (vm0 w1 w2 w3 w4 : ViewManager)
    (hnone : vm0.progress_file = none)
    (hquiet : ∀ (e : Event) (t : List Effect),
      (ext.HandleWindowEvents View.level_view e t).state = State.CONTINUE)
    (e1 : w1 = Initialize LEVEL_MENU_OPTIONS vm0)
    (e2 : w2 = SwitchView LEVEL_MENU_OPTIONS
      { state := State.PLAYING, level_number := 1 } w1)
    (e3 : w3 = Update LEVEL_MENU_OPTIONS ext elapsed events w2)
    (e4 : w4 = SwitchView LEVEL_MENU_OPTIONS
      { state := State.LEVEL_MENU, level_number := n } w3)
    (hwon : ext.GetGameState (UpdateViews LEVEL_MENU_OPTIONS ext elapsed events w2).trace
      = State.WON) :
    w1.unlocked = 1 ∧
    (w2.state = State.PLAYING ∧ w2.current_level = 1) ∧
    (w3.state = State.WON ∧ w3.unlocked = 2 ∧
      (vm0.progress_writable = true → w3.progress_file = some ['2'])) ∧
    (w4.state = State.LEVEL_MENU ∧
      w4.trace = w3.trace ++
        [Effect.Fire { state := State.LEVEL_MENU, level_number := n },
         Effect.ViewInitialize View.level_menu_view (some 2)]) := by
  have hread : ReadUnlockedLevel LEVEL_MENU_OPTIONS vm0 = 1 := by
      unfold ReadUnlockedLevel
      rw [hnone]
      dsimp only
      rw [if_neg (by omega)]
  have h1 : w1.unlocked = 1 := by rw [e1]; exact hread
  have hw1 : w1.progress_file = none ∧ w1.progress_writable = vm0.progress_writable := by
    rw [e1]; exact ⟨hnone, rfl⟩
  have hw2 : w2 = { w1 with
      state := State.PLAYING
      current_level := 1
      trace := w1.trace ++
        [Effect.Fire { state := State.PLAYING, level_number := 1 },
         Effect.LogicReset,
         Effect.LogicInitialize 1,
         Effect.ViewInitialize View.level_view none] } := by
    rw [e2]
    simp [SwitchView, SwitchToLevelView, ViewManager.log]
  have hs2 : w2.state = State.PLAYING := by rw [hw2]
  have hl2 : w2.current_level = 1 := by rw [hw2]
  have hu2 : w2.unlocked = 1 := by rw [hw2]; exact h1
  have hf2 : w2.progress_file = none := by rw [hw2]; exact hw1.1
  have hp2 : w2.progress_writable = vm0.progress_writable := by rw [hw2]; exact hw1.2
  obtain ⟨qs, ql, qu, qf, qp⟩ := HandleWindowEvents_quiet LEVEL_MENU_OPTIONS ext
    View.level_view hquiet events w2
  have hviews : UpdateViews LEVEL_MENU_OPTIONS ext elapsed events w2 =
      ((HandleWindowEvents LEVEL_MENU_OPTIONS ext View.level_view events w2).log
        (Effect.LogicUpdate elapsed)).log
        (Effect.ViewUpdate View.level_view (some elapsed)) := by
    unfold UpdateViews
    rw [hs2]
    dsimp only
    rw [if_pos (by rw [qs, hs2])]
  have hrun : w3 = SwitchToWinMenuView LEVEL_MENU_OPTIONS
      ((UpdateViews LEVEL_MENU_OPTIONS ext elapsed events w2).log Effect.LogicReset) := by
    rw [e3]
    simp only [Update, UpdateGameState, hwon]
  have hbl : ((UpdateViews LEVEL_MENU_OPTIONS ext elapsed events w2).log
      Effect.LogicReset).current_level = 1 := by
    rw [hviews]; simp only [ViewManager.log]; rw [ql, hl2]
  have hbu : ((UpdateViews LEVEL_MENU_OPTIONS ext elapsed events w2).log
      Effect.LogicReset).unlocked = 1 := by
    rw [hviews]; simp only [ViewManager.log]; rw [qu, hu2]
  have hbp : ((UpdateViews LEVEL_MENU_OPTIONS ext elapsed events w2).log
      Effect.LogicReset).progress_writable = vm0.progress_writable := by
    rw [hviews]; simp only [ViewManager.log]; rw [qp, hp2]
  have hwonfrom := wonFrom_SwitchToWinMenuView LEVEL_MENU_OPTIONS
    ((UpdateViews LEVEL_MENU_OPTIONS ext elapsed events w2).log Effect.LogicReset)
    (by rw [hbl]; omega) hMAX
  rw [← hrun] at hwonfrom
  obtain ⟨hs3, hu3, -, -, -, -, -, -, hfile⟩ := hwonfrom
  rw [hbu, hbl] at hu3
  have hu3' : w3.unlocked = 2 := by rw [hu3]; rfl
  refine ⟨h1, ⟨hs2, hl2⟩, ⟨hs3, hu3', ?_⟩, ?_⟩
  · intro hw
    have hf := (hfile (by rw [hbp]; exact hw) (by rw [hbu]; omega)).1
    rw [hbu, hbl] at hf
    rw [hf]
    rfl
  · rw [e4]
    simp [SwitchView, SwitchToLevelMenuView, ViewManager.log, hu3']

/-- Witness of C11: the session run from the fresh manager with 3 levels, one
event pending in the frame in which level 1 is won. -/
theorem C11_first_session_witness :
    (Initialize 3 freshManager).unlocked = 1 ∧
    (Update 3 (quietCollaborators State.WON) 16 [Event.Other 5]
      (SwitchView 3 { state := State.PLAYING, level_number := 1 }
        (Initialize 3 freshManager))).progress_file = some ['2'] ∧
    (SwitchView 3 { state := State.LEVEL_MENU, level_number := 0 }
      (Update 3 (quietCollaborators State.WON) 16 [Event.Other 5]
        (SwitchView 3 { state := State.PLAYING, level_number := 1 }
          (Initialize 3 freshManager)))).state = State.LEVEL_MENU := by
  have h := C11_first_session 3 (by decide) (by decide) (quietCollaborators State.WON) 16
    [Event.Other 5] 0 freshManager
    (Initialize 3 freshManager)
    (SwitchView 3 { state := State.PLAYING, level_number := 1 } (Initialize 3 freshManager))
    (Update 3 (quietCollaborators State.WON) 16 [Event.Other 5]
      (SwitchView 3 { state := State.PLAYING, level_number := 1 }
        (Initialize 3 freshManager)))
    (SwitchView 3 { state := State.LEVEL_MENU, level_number := 0 }
      (Update 3 (quietCollaborators State.WON) 16 [Event.Other 5]
        (SwitchView 3 { state := State.PLAYING, level_number := 1 }
          (Initialize 3 freshManager))))
    rfl (fun _ _ => rfl) rfl rfl rfl rfl rfl
  exact ⟨h.1, h.2.2.1.2.2 rfl, h.2.2.2.1⟩

/-! ### The event pump -/

theorem HandleWindowEvents_offered (LEVEL_MENU_OPTIONS : Nat) (ext : Collaborators)
    (view : View) (events : List Event) :
    ∀ vm : ViewManager,
      (∃ k : Nat,
        offered (HandleWindowEvents LEVEL_MENU_OPTIONS ext view events vm).trace =
          offered vm.trace ++
            ((events.takeWhile notClosed).take k).map (fun e => (view, e))) ∧
      advanced (HandleWindowEvents LEVEL_MENU_OPTIONS ext view events vm).trace =
        advanced vm.trace := by
  induction events with
  | nil =>
    intro vm
    exact ⟨⟨0, by simp [HandleWindowEvents]⟩, rfl⟩
  | cons e es ih =>
    intro vm
    unfold HandleWindowEvents
    by_cases hopen : vm.window_open = false
    · rw [if_pos hopen]
      exact ⟨⟨0, by simp⟩, rfl⟩
    · rw [if_neg hopen]
      cases e with
      | Closed =>
        dsimp only
        rw [HandleWindowEvents_closed LEVEL_MENU_OPTIONS ext view es _ rfl]
        refine ⟨⟨0, ?_⟩, ?_⟩
        · simp [ViewManager.log, offered]
        · simp [ViewManager.log, advanced]
      | Other code =>
        dsimp only
        have hstep :
            offered (if (ext.HandleWindowEvents view (Event.Other code) vm.trace).state
                ≠ State.CONTINUE then
              SwitchView LEVEL_MENU_OPTIONS
                (ext.HandleWindowEvents view (Event.Other code) vm.trace)
                (vm.log (Effect.ViewHandleWindowEvents view (Event.Other code)))
              else vm.log (Effect.ViewHandleWindowEvents view (Event.Other code))).trace
              = offered vm.trace ++ [(view, Event.Other code)] ∧
            advanced (if (ext.HandleWindowEvents view (Event.Other code) vm.trace).state
                ≠ State.CONTINUE then
              SwitchView LEVEL_MENU_OPTIONS
                (ext.HandleWindowEvents view (Event.Other code) vm.trace)
                (vm.log (Effect.ViewHandleWindowEvents view (Event.Other code)))
              else vm.log (Effect.ViewHandleWindowEvents view (Event.Other code))).trace
              = advanced vm.trace := by
          split_ifs
          · rw [(SwitchView_offered LEVEL_MENU_OPTIONS _ _).1,
              (SwitchView_offered LEVEL_MENU_OPTIONS _ _).2]
            constructor
            · simp [ViewManager.log, offered]
            · simp [ViewManager.log, advanced]
          · constructor
            · simp [ViewManager.log, offered]
            · simp [ViewManager.log, advanced]
        obtain ⟨⟨k, hk⟩, ha⟩ := ih
          (if (ext.HandleWindowEvents view (Event.Other code) vm.trace).state
              ≠ State.CONTINUE then
            SwitchView LEVEL_MENU_OPTIONS
              (ext.HandleWindowEvents view (Event.Other code) vm.trace)
              (vm.log (Effect.ViewHandleWindowEvents view (Event.Other code)))
            else vm.log (Effect.ViewHandleWindowEvents view (Event.Other code)))
        refine ⟨⟨k + 1, ?_⟩, ?_⟩
        · rw [hk, hstep.1]
          simp [List.takeWhile_cons, notClosed]
        · rw [ha, hstep.2]

theorem SwitchView_window_open_of_ne_EXIT (LEVEL_MENU_OPTIONS : Nat)
    (view_switch : ViewSwitch) (vm : ViewManager) (h : view_switch.state ≠ State.EXIT) :
    (SwitchView LEVEL_MENU_OPTIONS view_switch vm).window_open = vm.window_open ∧
    (SwitchView LEVEL_MENU_OPTIONS view_switch vm).running = vm.running := by
  obtain ⟨s, n⟩ := view_switch
  cases s
  case EXIT => exact absurd rfl h
  case WON =>
    have hw := SwitchToWinMenuView_running LEVEL_MENU_OPTIONS
      (vm.log (Effect.Fire { state := State.WON, level_number := n }))
    exact ⟨hw.2, hw.1⟩
  case PLAYING =>
    by_cases hn : n > 0 <;>
      simp [SwitchView, SwitchToLevelView, ViewManager.log, hn]
  all_goals
    simp [SwitchView, SwitchToMainMenuView, SwitchToLevelMenuView, ResumePlayerView,
      SwitchToPauseMenuView, SwitchToFailMenuView, ViewManager.log]

theorem HandleWindowEvents_offered_all (LEVEL_MENU_OPTIONS : Nat) (ext : Collaborators)
    (view : View)
    (hext : ∀ (e : Event) (t : List Effect),
      (ext.HandleWindowEvents view e t).state ≠ State.EXIT)
    (events : List Event) :
    ∀ vm : ViewManager, vm.window_open = true →
      offered (HandleWindowEvents LEVEL_MENU_OPTIONS ext view events vm).trace =
        offered vm.trace ++ (events.takeWhile notClosed).map (fun e => (view, e)) := by
  induction events with
  | nil => intro vm _; simp [HandleWindowEvents]
  | cons e es ih =>
    intro vm hopen
    unfold HandleWindowEvents
    rw [if_neg (by simp [hopen])]
    cases e with
    | Closed =>
      dsimp only
      rw [HandleWindowEvents_closed LEVEL_MENU_OPTIONS ext view es _ rfl]
      simp [ViewManager.log, offered, notClosed]
    | Other code =>
      dsimp only
      split_ifs with hc
      · rw [ih _ (by
            rw [(SwitchView_window_open_of_ne_EXIT LEVEL_MENU_OPTIONS _ _ (hext _ _)).1]
            exact hopen),
          (SwitchView_offered LEVEL_MENU_OPTIONS _ _).1]
        simp [ViewManager.log, offered, List.takeWhile_cons, notClosed]
      · rw [ih _ (by exact hopen)]
        simp [ViewManager.log, offered, List.takeWhile_cons, notClosed]

theorem HandleWindowEvents_stops (LEVEL_MENU_OPTIONS : Nat) (ext : Collaborators)
    (view : View) (events : List Event) :
    ∀ vm : ViewManager, (vm.window_open = false → vm.running = false) →
      (Event.Closed ∈ events ∨ vm.window_open = false) →
      (HandleWindowEvents LEVEL_MENU_OPTIONS ext view events vm).running = false ∧
      (HandleWindowEvents LEVEL_MENU_OPTIONS ext view events vm).window_open = false := by
  induction events with
  | nil =>
    intro vm hinv h
    rcases h with h | h
    · exact absurd h (List.not_mem_nil _)
    · exact ⟨hinv h, h⟩
  | cons e es ih =>
    intro vm hinv h
    by_cases hopen : vm.window_open = false
    · rw [HandleWindowEvents_closed LEVEL_MENU_OPTIONS ext view _ vm hopen]
      exact ⟨hinv hopen, hopen⟩
    · have hmem : Event.Closed ∈ e :: es := h.resolve_right hopen
      unfold HandleWindowEvents
      rw [if_neg hopen]
      cases e with
      | Closed =>
        dsimp only
        rw [HandleWindowEvents_closed LEVEL_MENU_OPTIONS ext view es _ rfl]
        exact ⟨rfl, rfl⟩
      | Other code =>
        dsimp only
        have hes : Event.Closed ∈ es := by
          rcases List.mem_cons.mp hmem with h1 | h1
          · cases h1
          · exact h1
        apply ih _ _ (Or.inl hes)
        split_ifs with hc
        · by_cases hx : (ext.HandleWindowEvents view (Event.Other code) vm.trace).state
              = State.EXIT
          · intro _
            generalize ext.HandleWindowEvents view (Event.Other code) vm.trace = r at hx
            obtain ⟨s, n⟩ := r
            simp only at hx
            subst hx
            simp [SwitchView, ViewManager.log]
          · rw [(SwitchView_window_open_of_ne_EXIT LEVEL_MENU_OPTIONS _ _ hx).1,
              (SwitchView_window_open_of_ne_EXIT LEVEL_MENU_OPTIONS _ _ hx).2]
            exact hinv
        · exact hinv

/-- C17: a window close event is never offered to a view: whatever the events of
a frame, the handler calls made by `HandleWindowEvents` are calls of the view
it was given, for a leading part of the events that come before the first
close event, so neither the close event nor any event after it is offered to
any view.  With the window open, a close event closes the window and sets
`running` to false without a handler call and drops the events behind it, and
a frame whose events hold a close event ends with the window closed and
`running` false. -/
theorem C17_close_event (LEVEL_MENU_OPTIONS : Nat) (ext : Collaborators) (view : View)
    (events pending : List Event) (vm : ViewManager) :
    (∃ k : Nat,
      offered (HandleWindowEvents LEVEL_MENU_OPTIONS ext view events vm).trace =
        offered vm.trace ++
          ((events.takeWhile notClosed).take k).map (fun e => (view, e))) ∧
    (vm.window_open = true →
      HandleWindowEvents LEVEL_MENU_OPTIONS ext view (Event.Closed :: pending) vm =
        { vm with
          running := false
          window_open := false
          trace := vm.trace ++ [Effect.WindowClose] }) ∧
    (vm.window_open = true → Event.Closed ∈ events →
      (HandleWindowEvents LEVEL_MENU_OPTIONS ext view events vm).running = false ∧
      (HandleWindowEvents LEVEL_MENU_OPTIONS ext view events vm).window_open = false) := by
  refine ⟨(HandleWindowEvents_offered LEVEL_MENU_OPTIONS ext view events vm).1, ?_, ?_⟩
  · intro hopen
    have hstop : HandleWindowEvents LEVEL_MENU_OPTIONS ext view pending
        { vm with
          running := false
          window_open := false
          trace := vm.trace ++ [Effect.WindowClose] } =
        { vm with
          running := false
          window_open := false
          trace := vm.trace ++ [Effect.WindowClose] } :=
      HandleWindowEvents_closed LEVEL_MENU_OPTIONS ext view pending _ rfl
    simp only [HandleWindowEvents, hopen, ViewManager.log]
    simpa using hstop
  · intro hopen hmem
    exact HandleWindowEvents_stops LEVEL_MENU_OPTIONS ext view events vm
      (fun h => by rw [hopen] at h; cases h) (Or.inl hmem)

/-- Witness of C17: in the main menu with the window open, an event, a close
event and another event are pending. -/
theorem C17_close_event_witness :
    (HandleWindowEvents 3 (quietCollaborators State.PLAYING) View.main_menu_view
      [Event.Other 1, Event.Closed, Event.Other 2] freshManager).running = false ∧
    (HandleWindowEvents 3 (quietCollaborators State.PLAYING) View.main_menu_view
      [Event.Other 1, Event.Closed, Event.Other 2] freshManager).window_open = false ∧
    HandleWindowEvents 3 (quietCollaborators State.PLAYING) View.main_menu_view
        (Event.Closed :: [Event.Other 2]) freshManager =
      { freshManager with
        running := false
        window_open := false
        trace := freshManager.trace ++ [Effect.WindowClose] } :=
  ⟨((C17_close_event 3 (quietCollaborators State.PLAYING) View.main_menu_view
      [Event.Other 1, Event.Closed, Event.Other 2] [Event.Other 2] freshManager).2.2
      rfl (by decide)).1,
   ((C17_close_event 3 (quietCollaborators State.PLAYING) View.main_menu_view
      [Event.Other 1, Event.Closed, Event.Other 2] [Event.Other 2] freshManager).2.2
      rfl (by decide)).2,
   (C17_close_event 3 (quietCollaborators State.PLAYING) View.main_menu_view
      [Event.Other 1, Event.Closed, Event.Other 2] [Event.Other 2] freshManager).2.1 rfl⟩

/-! ### The frame -/

theorem UpdateGameState_offered (LEVEL_MENU_OPTIONS : Nat) (ext : Collaborators)
    (vm : ViewManager) :
    offered (UpdateGameState LEVEL_MENU_OPTIONS ext vm).trace = offered vm.trace ∧
    advanced (UpdateGameState LEVEL_MENU_OPTIONS ext vm).trace = advanced vm.trace := by
  unfold UpdateGameState
  split
  · obtain ⟨rest, hrest, hall⟩ := SwitchToWinMenuView_kinds LEVEL_MENU_OPTIONS
      (vm.log Effect.LogicReset)
    rw [hrest, offered_append, advanced_append, offered_of_kinds rest hall,
      advanced_of_kinds rest hall]
    simp [ViewManager.log, offered, advanced]
  · simp [SwitchToFailMenuView, ViewManager.log, offered, advanced]
  · exact ⟨rfl, rfl⟩

theorem UpdateViews_offered (LEVEL_MENU_OPTIONS : Nat) (ext : Collaborators)
    (elapsed : Int) (events : List Event) (vm : ViewManager) :
    (∀ view : View, viewOf vm.state = some view →
      offered (UpdateViews LEVEL_MENU_OPTIONS ext elapsed events vm).trace =
        offered (HandleWindowEvents LEVEL_MENU_OPTIONS ext view events vm).trace) ∧
    (viewOf vm.state = none →
      UpdateViews LEVEL_MENU_OPTIONS ext elapsed events vm = vm) := by
  unfold UpdateViews
  cases hs : vm.state <;> simp only [viewOf] <;> constructor
  all_goals first
    | (intro view h
       cases h <;> (try split_ifs) <;> simp [ViewManager.log, offered])
    | (intro _
       trivial)

/-- C14 fails as stated: in a frame that starts in the main menu, the first event
switches to the level menu, and the second event is still offered to the main
menu view, not to the level menu view. -/
theorem C14_event_routing_counterexample :
    (HandleWindowEvents 3
      (scriptedCollaborators { state := State.LEVEL_MENU, level_number := 0 })
      View.main_menu_view [Event.Other 1] freshManager).state = State.LEVEL_MENU ∧
    offered (Update 3
      (scriptedCollaborators { state := State.LEVEL_MENU, level_number := 0 })
      16 [Event.Other 1, Event.Other 2] freshManager).trace
      = [(View.main_menu_view, Event.Other 1), (View.main_menu_view, Event.Other 2)] := by
  decide

/-- C14, amended: within one `Update`, events are offered in order and all to the
view of the state the frame began in, also after a switch made for an earlier
event of the frame changed `state`: the handler calls of the frame are calls
of that view for a leading part of the events before the first close event,
and for all of them when the window is open and that view never asks for
`EXIT`.  A frame that begins in a state without a view offers no event. -/
theorem C14_event_routing (LEVEL_MENU_OPTIONS : Nat) (ext : Collaborators)
    (elapsed : Int) (events : List Event) (vm : ViewManager) (view : View) :
    (viewOf vm.state = some view →
      ∃ k : Nat,
        offered (Update LEVEL_MENU_OPTIONS ext elapsed events vm).trace =
          offered vm.trace ++
            ((events.takeWhile notClosed).take k).map (fun e => (view, e))) ∧
    (viewOf vm.state = some view → vm.window_open = true →
      (∀ (e : Event) (t : List Effect),
        (ext.HandleWindowEvents view e t).state ≠ State.EXIT) →
      offered (Update LEVEL_MENU_OPTIONS ext elapsed events vm).trace =
        offered vm.trace ++ (events.takeWhile notClosed).map (fun e => (view, e))) ∧
    (viewOf vm.state = none →
      offered (Update LEVEL_MENU_OPTIONS ext elapsed events vm).trace = offered vm.trace) := by
  have hpoll : offered (Update LEVEL_MENU_OPTIONS ext elapsed events vm).trace =
      offered (UpdateViews LEVEL_MENU_OPTIONS ext elapsed events vm).trace :=
    (UpdateGameState_offered LEVEL_MENU_OPTIONS ext _).1
  refine ⟨?_, ?_, ?_⟩
  · intro hv
    rw [hpoll, (UpdateViews_offered LEVEL_MENU_OPTIONS ext elapsed events vm).1 view hv]
    exact (HandleWindowEvents_offered LEVEL_MENU_OPTIONS ext view events vm).1
  · intro hv hopen hext
    rw [hpoll, (UpdateViews_offered LEVEL_MENU_OPTIONS ext elapsed events vm).1 view hv]
    exact HandleWindowEvents_offered_all LEVEL_MENU_OPTIONS ext view hext events vm hopen
  · intro hv
    rw [hpoll, (UpdateViews_offered LEVEL_MENU_OPTIONS ext elapsed events vm).2 hv]

/-- Witness of C14: the frame of the main menu in which the first of two events
switches to the level menu. -/
theorem C14_event_routing_witness :
    offered (Update 3
      (scriptedCollaborators { state := State.LEVEL_MENU, level_number := 0 })
      16 [Event.Other 1, Event.Other 2] freshManager).trace
      = offered freshManager.trace ++
        ([Event.Other 1, Event.Other 2].takeWhile notClosed).map
          (fun e => (View.main_menu_view, e)) :=
  (C14_event_routing 3
    (scriptedCollaborators { state := State.LEVEL_MENU, level_number := 0 })
    16 [Event.Other 1, Event.Other 2] freshManager View.main_menu_view).2.1
    rfl rfl (fun _ _ => by simp [scriptedCollaborators])

theorem UpdateViews_advanced (LEVEL_MENU_OPTIONS : Nat) (ext : Collaborators)
    (elapsed : Int) (events : List Event) (vm : ViewManager) :
    advanced (UpdateViews LEVEL_MENU_OPTIONS ext elapsed events vm).trace =
      advanced vm.trace ++
        (if vm.state = State.PLAYING ∧
            (HandleWindowEvents LEVEL_MENU_OPTIONS ext View.level_view events vm).state
              = State.PLAYING then
          [Effect.LogicUpdate elapsed, Effect.ViewUpdate View.level_view (some elapsed)]
        else []) := by
  have hpump : ∀ view : View,
      advanced (HandleWindowEvents LEVEL_MENU_OPTIONS ext view events vm).trace =
        advanced vm.trace :=
    fun view => (HandleWindowEvents_offered LEVEL_MENU_OPTIONS ext view events vm).2
  unfold UpdateViews
  cases hs : vm.state <;> dsimp only <;> (try split_ifs) <;>
    simp_all [ViewManager.log, advanced_append, advanced]

/-- C15 fails as stated: in a frame that begins in the pause menu and in which the
pause menu view asks to resume, `state` is `PLAYING` after the events were
handled, yet the game is not advanced: the pause menu view is updated. -/
theorem C15_advance_counterexample :
    (HandleWindowEvents 3
      (scriptedCollaborators { state := State.RESUME, level_number := 0 })
      View.pause_menu_view [Event.Other 1] pausedManager).state = State.PLAYING ∧
    (Update 3 (scriptedCollaborators { state := State.RESUME, level_number := 0 })
      16 [Event.Other 1] pausedManager).trace
      = [Effect.ViewHandleWindowEvents View.pause_menu_view (Event.Other 1),
         Effect.Fire { state := State.RESUME, level_number := 0 },
         Effect.ViewUpdate View.pause_menu_view none] := by
  decide

/-- C15, amended: `Update` advances the logic center by `elapsed` and updates the
level view, once and in that order, if and only if the frame began in
`PLAYING` and `state` is still `PLAYING` after the events were handled.  A
frame that began in another state does not advance the game even when it
enters `PLAYING` while its events are handled; it updates the view of the state
it began in. -/
theorem C15_advance (LEVEL_MENU_OPTIONS : Nat) (ext : Collaborators)
    (elapsed : Int) (events : List Event) (vm : ViewManager) :
    advanced (Update LEVEL_MENU_OPTIONS ext elapsed events vm).trace =
      advanced vm.trace ++
        (if vm.state = State.PLAYING ∧
            (HandleWindowEvents LEVEL_MENU_OPTIONS ext View.level_view events vm).state
              = State.PLAYING then
          [Effect.LogicUpdate elapsed, Effect.ViewUpdate View.level_view (some elapsed)]
        else []) := by
  have hpoll : advanced (Update LEVEL_MENU_OPTIONS ext elapsed events vm).trace =
      advanced (UpdateViews LEVEL_MENU_OPTIONS ext elapsed events vm).trace :=
    (UpdateGameState_offered LEVEL_MENU_OPTIONS ext _).2
  rw [hpoll]
  exact UpdateViews_advanced LEVEL_MENU_OPTIONS ext elapsed events vm

/-! ### After Exit -/

theorem closed_frame (LEVEL_MENU_OPTIONS : Nat) (ext : Collaborators) (elapsed : Int)
    (events : List Event) (vm : ViewManager) (view : View)
    (hclosed : vm.window_open = false) (hv : viewOf vm.state = some view) :
    Render vm = vm.log (Effect.ViewRender view) ∧
    UpdateViews LEVEL_MENU_OPTIONS ext elapsed events vm =
      (if vm.state = State.PLAYING then
        (vm.log (Effect.LogicUpdate elapsed)).log
          (Effect.ViewUpdate View.level_view (some elapsed))
      else vm.log (Effect.ViewUpdate view none)) := by
  unfold Render UpdateViews
  simp only [HandleWindowEvents_closed LEVEL_MENU_OPTIONS ext _ events vm hclosed]
  cases hs : vm.state <;> rw [hs] at hv <;> simp only [viewOf] at hv <;>
    first
    | (cases hv
       simp [hs])
    | exact absurd hv (by simp)

theorem UpdateGameState_extends (LEVEL_MENU_OPTIONS : Nat) (ext : Collaborators)
    (vm : ViewManager) :
    ∃ rest : List Effect,
      (UpdateGameState LEVEL_MENU_OPTIONS ext vm).trace = vm.trace ++ rest := by
  unfold UpdateGameState
  split
  · obtain ⟨rest, hrest, -⟩ := SwitchToWinMenuView_kinds LEVEL_MENU_OPTIONS
      (vm.log Effect.LogicReset)
    refine ⟨Effect.LogicReset :: rest, ?_⟩
    rw [hrest]
    simp [ViewManager.log]
  · exact ⟨[Effect.LogicReset,
      Effect.ViewInitialize View.fail_menu_view (some vm.current_level)],
      by simp [SwitchToFailMenuView, ViewManager.log]⟩
  · exact ⟨[], by simp⟩

theorem UpdateGameState_hasView (LEVEL_MENU_OPTIONS : Nat) (ext : Collaborators)
    (vm : ViewManager) (h : viewOf vm.state ≠ none) :
    viewOf (UpdateGameState LEVEL_MENU_OPTIONS ext vm).state ≠ none := by
  unfold UpdateGameState
  split
  · rw [SwitchToWinMenuView_state]
    split_ifs <;> simp [viewOf]
  · simp [SwitchToFailMenuView, viewOf]
  · exact h

theorem closed_call_hasView (LEVEL_MENU_OPTIONS : Nat) (ext : Collaborators) (c : Call)
    (vm : ViewManager) (hclosed : vm.window_open = false)
    (h : viewOf vm.state ≠ none) :
    viewOf (c.run LEVEL_MENU_OPTIONS ext vm).state ≠ none ∧
    (c.run LEVEL_MENU_OPTIONS ext vm).window_open = false := by
  obtain ⟨view, hv⟩ := Option.ne_none_iff_exists'.mp h
  cases c with
  | update elapsed events =>
    simp only [Call.run, Update]
    constructor
    · apply UpdateGameState_hasView
      rw [(closed_frame LEVEL_MENU_OPTIONS ext elapsed events vm view hclosed hv).2]
      split_ifs <;> simpa [ViewManager.log] using h
    · rw [(UpdateGameState_running _ _ _).2,
        (UpdateViews_closed LEVEL_MENU_OPTIONS ext elapsed events vm hclosed).2]
  | render =>
    simp only [Call.run]
    rw [(closed_frame LEVEL_MENU_OPTIONS ext 0 [] vm view hclosed hv).1]
    exact ⟨by simpa [ViewManager.log] using h, by simpa [ViewManager.log] using hclosed⟩

theorem runCalls_closed_hasView (LEVEL_MENU_OPTIONS : Nat) (ext : Collaborators)
    (calls : List Call) : ∀ vm : ViewManager,
    vm.window_open = false → viewOf vm.state ≠ none →
    viewOf (runCalls LEVEL_MENU_OPTIONS ext calls vm).state ≠ none := by
  induction calls with
  | nil => intro vm _ h; exact h
  | cons c cs ih =>
    intro vm hclosed h
    simp only [runCalls]
    exact ih _ (closed_call_hasView LEVEL_MENU_OPTIONS ext c vm hclosed h).2
      (closed_call_hasView LEVEL_MENU_OPTIONS ext c vm hclosed h).1

/-- C7 fails as stated: after an Exit request in the main menu the state is still
`MAIN_MENU` (there is no resting exit state), and a later `Update` and `Render`
still update and render the main menu view. -/
theorem C7_exit_counterexample :
    (SwitchView 3 { state := State.EXIT, level_number := 0 } freshManager).state
      = State.MAIN_MENU ∧
    (runCalls 3 (quietCollaborators State.PLAYING) [Call.update 16 [], Call.render]
      (SwitchView 3 { state := State.EXIT, level_number := 0 } freshManager)).trace
      = [Effect.Fire { state := State.EXIT, level_number := 0 },
         Effect.WindowClose,
         Effect.ViewUpdate View.main_menu_view none,
         Effect.ViewRender View.main_menu_view] := by
  decide

/-- C7, amended: the Exit request, from any state, closes the window and sets
`running` to false, and leaves `state` as it was; after it, for every later
sequence of `Update` and `Render` calls, `Running()` stays false and the window
stays closed.  The views are not stopped: after any such sequence, in a state
`w` that has a view, `Render` still renders that view, and `Update` still
updates it (in `PLAYING` it advances the logic center and updates the level
view) before the game-state poll; and a state that had a view when Exit was
requested still has one after every later sequence of calls. -/
theorem C7_exit (LEVEL_MENU_OPTIONS : Nat) (ext : Collaborators) (vm : ViewManager)
    (n : Nat) (calls : List Call) :
    SwitchView LEVEL_MENU_OPTIONS { state := State.EXIT, level_number := n } vm =
      { vm with
        running := false
        window_open := false
        trace := vm.trace ++
          [Effect.Fire { state := State.EXIT, level_number := n }, Effect.WindowClose] } ∧
    Running (runCalls LEVEL_MENU_OPTIONS ext calls
      (SwitchView LEVEL_MENU_OPTIONS { state := State.EXIT, level_number := n } vm))
      = false ∧
    (runCalls LEVEL_MENU_OPTIONS ext calls
      (SwitchView LEVEL_MENU_OPTIONS { state := State.EXIT, level_number := n } vm)).window_open
      = false ∧
    (∀ (w : ViewManager) (view : View) (elapsed : Int) (events : List Event),
      w = runCalls LEVEL_MENU_OPTIONS ext calls
        (SwitchView LEVEL_MENU_OPTIONS { state := State.EXIT, level_number := n } vm) →
      viewOf w.state = some view →
      Render w = w.log (Effect.ViewRender view) ∧
      UpdateViews LEVEL_MENU_OPTIONS ext elapsed events w =
        (if w.state = State.PLAYING then
          (w.log (Effect.LogicUpdate elapsed)).log
            (Effect.ViewUpdate View.level_view (some elapsed))
        else w.log (Effect.ViewUpdate view none)) ∧
      ∃ rest : List Effect,
        (Update LEVEL_MENU_OPTIONS ext elapsed events w).trace =
          (UpdateViews LEVEL_MENU_OPTIONS ext elapsed events w).trace ++ rest) ∧
    (viewOf vm.state ≠ none →
      viewOf (runCalls LEVEL_MENU_OPTIONS ext calls
        (SwitchView LEVEL_MENU_OPTIONS
          { state := State.EXIT, level_number := n } vm)).state ≠ none) := by
  have hexit : SwitchView LEVEL_MENU_OPTIONS { state := State.EXIT, level_number := n } vm =
      { vm with
        running := false
        window_open := false
        trace := vm.trace ++
          [Effect.Fire { state := State.EXIT, level_number := n }, Effect.WindowClose] } := by
    simp [SwitchView, ViewManager.log]
  have hclosed := runCalls_closed LEVEL_MENU_OPTIONS ext calls
    (SwitchView LEVEL_MENU_OPTIONS { state := State.EXIT, level_number := n } vm)
    (by rw [hexit]) (by rw [hexit])
  refine ⟨hexit, hclosed.1, hclosed.2, ?_, ?_⟩
  · intro w view elapsed events hw hv
    have hwc : w.window_open = false := by rw [hw]; exact hclosed.2
    have hframe := closed_frame LEVEL_MENU_OPTIONS ext elapsed events w view hwc hv
    exact ⟨hframe.1, hframe.2, UpdateGameState_extends LEVEL_MENU_OPTIONS ext _⟩
  · intro hview
    apply runCalls_closed_hasView LEVEL_MENU_OPTIONS ext calls _ (by rw [hexit])
    rw [hexit]
    exact hview

/-- Witness of C7: Exit is requested in the main menu and a frame passes; the
next `Render` still renders the main menu view and the next `Update` still
updates it. -/
theorem C7_exit_witness :
    Render (runCalls 3 (quietCollaborators State.PLAYING) [Call.update 16 [], Call.render]
        (SwitchView 3 { state := State.EXIT, level_number := 0 } freshManager)) =
      (runCalls 3 (quietCollaborators State.PLAYING) [Call.update 16 [], Call.render]
        (SwitchView 3 { state := State.EXIT, level_number := 0 } freshManager)).log
        (Effect.ViewRender View.main_menu_view) ∧
    viewOf (runCalls 3 (quietCollaborators State.PLAYING) [Call.update 16 [], Call.render]
      (SwitchView 3 { state := State.EXIT, level_number := 0 } freshManager)).state
      ≠ none :=
  ⟨((C7_exit 3 (quietCollaborators State.PLAYING) freshManager 0
      [Call.update 16 [], Call.render]).2.2.2.1
      (runCalls 3 (quietCollaborators State.PLAYING) [Call.update 16 [], Call.render]
        (SwitchView 3 { state := State.EXIT, level_number := 0 } freshManager))
      View.main_menu_view 16 [Event.Other 1] rfl (by decide)).1,
   (C7_exit 3 (quietCollaborators State.PLAYING) freshManager 0
      [Call.update 16 [], Call.render]).2.2.2.2 (by decide)⟩

end tjg
